import Mathlib

/-!
Verification development for the fill-rate classifier repository.

Shallow embedding of the two core subsystems:
  * `src/classification/recommendation_classifier.py` (heuristic classifier,
    value extraction, escalation parsing, priority, action synthesis),
  * `src/classification/confidence.py` (multi-factor confidence calculator),
  * `src/pipeline/batch_processor.py` (batch orchestrator, circuit breaker,
    prioritized actions, export).

Modelling conventions:
  * Python floats are modelled as exact rationals (`ℚ`); all the constants
    involved (0.3, 0.5, 0.2, 0.95, ...) are decimal and the source never
    relies on rounding behaviour.  `float()` parsing of escalation
    responses is modelled with its full finite grammar (sign, underscored
    digit groups, fraction, exponent) plus the non-finite `inf`/`nan`
    forms, tracked by `PyFloatVal` (see `pyFloatToRat` for how non-finite
    values meet the `ℚ`-valued confidence field).
  * Python regular expressions are embedded as an AST (`Piece`) covering the
    dialect the repository actually uses: literal runs, `.*` gaps and `\d+`
    digit runs, with top-level alternation.  `re.search` success is the
    executable matcher `research`.
  * Python exceptions are modelled with `Except PyErr`; a `.error` value is a
    Python exception propagating out of the modelled call.
  * Python dicts are association lists with insert-or-overwrite that keeps
    the original key position, mirroring CPython insertion order.
-/

namespace FillRate

/-- Python exceptions that the modelled code can raise. -/
inductive PyErr
  | typeError
  | valueError
  | zeroDivisionError
deriving Repr, DecidableEq

/-! ### Restricted regular expressions

A `Piece` is one component of a regex alternative as used throughout the
repository's patterns: a literal character run, a `\d+` digit run, or a `.*`
gap.  A full pattern (`Regex`) is a top-level alternation of sequences. -/

inductive Piece
  | lit (s : List Char)
  | digits
  | gap
deriving Repr, DecidableEq

abbrev Regex := List (List Piece)

/-- Literal piece from a string. -/
def plit (s : String) : Piece := Piece.lit s.data

/-- `mseq ps t`: the piece sequence `ps` matches some prefix-anchored
instance in `t` (existential backtracking semantics, which coincides with
`re.search` success when prefixed with a `gap`). -/
def mseq : List Piece → List Char → Bool
  | [], _ => true
  | Piece.lit s :: ps, t => s.isPrefixOf t && mseq ps (t.drop s.length)
  | Piece.digits :: _, [] => false
  | Piece.digits :: ps, c :: rest =>
      c.isDigit && (mseq ps rest || mseq (Piece.digits :: ps) rest)
  | Piece.gap :: ps, t =>
      mseq ps t ||
        (match t with
         | [] => false
         | _ :: rest => mseq (Piece.gap :: ps) rest)
termination_by ps t => ps.length + t.length
decreasing_by
  all_goals simp_all [List.length_drop]
  all_goals omega

/-- `re.search(pattern, t)` succeeds: some alternative matches somewhere. -/
def research (re : Regex) (t : List Char) : Bool :=
  re.any fun alt => mseq (Piece.gap :: alt) t

/-- ASCII lower-casing of a character list (Python `str.lower`). -/
def lowerStr (s : List Char) : List Char := s.map Char.toLower

/-- Substring containment (Python `needle in hay` for strings). -/
def containsSub (hay needle : List Char) : Bool :=
  needle.isPrefixOf hay ||
    match hay with
    | [] => false
    | _ :: t => containsSub t needle

/-! ### Recommendation classifier: data model -/

/-- `RecommendationCategory` enumeration from
`recommendation_classifier.py`. -/
inductive RecommendationCategory
  | wage_adjustment
  | lead_time
  | geographic_expansion
  | worker_quality
  | requirement_barriers
  | shift_timing
  | supply_demand
  | urgent_action
  | other
deriving Repr, DecidableEq

/-- The `.value` string of each category member. -/
def categoryValue : RecommendationCategory → String
  | .wage_adjustment => "wage_adjustment"
  | .lead_time => "lead_time"
  | .geographic_expansion => "geographic_expansion"
  | .worker_quality => "worker_quality"
  | .requirement_barriers => "requirement_barriers"
  | .shift_timing => "shift_timing"
  | .supply_demand => "supply_demand"
  | .urgent_action => "urgent_action"
  | .other => "other"

/-- `RecommendationCategory[name]` lookup by member name (used when parsing
the escalation response); `none` models the `KeyError` branch. -/
def categoryFromName (s : String) : Option RecommendationCategory :=
  if s = "WAGE_ADJUSTMENT" then some .wage_adjustment
  else if s = "LEAD_TIME" then some .lead_time
  else if s = "GEOGRAPHIC_EXPANSION" then some .geographic_expansion
  else if s = "WORKER_QUALITY" then some .worker_quality
  else if s = "REQUIREMENT_BARRIERS" then some .requirement_barriers
  else if s = "SHIFT_TIMING" then some .shift_timing
  else if s = "SUPPLY_DEMAND" then some .supply_demand
  else if s = "URGENT_ACTION" then some .urgent_action
  else if s = "OTHER" then some .other
  else none

/-- The classifier's hard-coded per-category pattern families
(`self.patterns` in `RecommendationClassifier.__init__`), embedded as regex
ASTs; each category has two patterns, each pattern a top-level alternation.
Case is preserved exactly (`NOW`, `ASAP`, `ID`, `W2` are upper-case in the
source and `_pattern_match_category` searches the lower-cased text without
`re.IGNORECASE`). -/
def categoryPatterns : List (RecommendationCategory × List Regex) :=
  [ (.wage_adjustment,
      [ [[plit "increase", Piece.gap, plit "wage"],
         [plit "raise", Piece.gap, plit "pay"],
         [plit "pay", Piece.gap, plit "below"],
         [plit "wage", Piece.gap, plit "competitive"],
         [plit "increase", Piece.gap, plit "rate", Piece.gap, plit "$"]],
        [[plit "offer", Piece.gap, plit "$", Piece.digits],
         [plit "recommended", Piece.gap, plit "$", Piece.digits],
         [plit "adjust", Piece.gap, plit "pricing"]] ]),
    (.lead_time,
      [ [[plit "post", Piece.gap, plit "earlier"],
         [plit "lead", Piece.gap, plit "time"],
         [plit "advance", Piece.gap, plit "notice"],
         [plit "booking", Piece.gap, plit "lead"]],
        [[Piece.digits, Piece.gap, plit "hours", Piece.gap, plit "advance"],
         [plit "schedule", Piece.gap, plit "sooner"]] ]),
    (.geographic_expansion,
      [ [[plit "expand", Piece.gap, plit "radius"],
         [plit "geographic"],
         [plit "distance"],
         [plit "miles", Piece.gap, plit "away"],
         [plit "access", Piece.gap, plit "tier"]],
        [[plit "worker", Piece.gap, plit "pool", Piece.gap, plit "location"],
         [plit "broaden", Piece.gap, plit "reach"]] ]),
    (.worker_quality,
      [ [[plit "call", Piece.gap, plit "worker"],
         [plit "high", Piece.gap, plit "risk"],
         [plit "reliability"],
         [plit "worker", Piece.gap, plit "ID"],
         [plit "contact", Piece.gap, plit "immediately"]],
        [[plit "monitor", Piece.gap, plit "specific"],
         [plit "check", Piece.gap, plit "status"]] ]),
    (.requirement_barriers,
      [ [[plit "remove", Piece.gap, plit "requirement"],
         [plit "background", Piece.gap, plit "check"],
         [plit "drug", Piece.gap, plit "screen"],
         [plit "W2", Piece.gap, plit "only"]],
        [[plit "relax", Piece.gap, plit "criteria"],
         [plit "reduce", Piece.gap, plit "barrier"]] ]),
    (.shift_timing,
      [ [[plit "shift", Piece.gap, plit "timing"],
         [plit "time", Piece.gap, plit "of", Piece.gap, plit "day"],
         [plit "morning", Piece.gap, plit "shift"],
         [plit "evening", Piece.gap, plit "hours"]],
        [[plit "avoid", Piece.gap, plit "early"],
         [plit "weekend", Piece.gap, plit "pattern"]] ]),
    (.supply_demand,
      [ [[plit "supply", Piece.gap, plit "demand"],
         [plit "worker", Piece.gap, plit "shortage"],
         [plit "eligible", Piece.gap, plit "pool"],
         [plit "increase", Piece.gap, plit "slots"]],
        [[plit "not", Piece.gap, plit "enough", Piece.gap, plit "workers"],
         [plit "limited", Piece.gap, plit "availability"]] ]),
    (.urgent_action,
      [ [[plit "immediate"], [plit "urgent"], [plit "critical"],
         [plit "NOW"], [plit "ASAP"], [plit "today"]],
        [[plit "within", Piece.gap, Piece.digits, Piece.gap, plit "hour"],
         [plit "before", Piece.gap, plit "shift", Piece.gap, plit "start"]] ]) ]

/-- `_pattern_match_category`: count matching patterns per category over the
lower-cased text, confidence `min(0.9, 0.5 + matches*0.2)`, keep the best
strictly-improving category, defaulting to `(OTHER, 0.3)`. -/
def patternMatchCategory (text : String) : RecommendationCategory × ℚ :=
  let textLower := lowerStr text.data
  categoryPatterns.foldl
    (fun best entry =>
      let mcount : ℕ := entry.2.countP (fun re => research re textLower)
      if 0 < mcount then
        let confidence := min (9/10 : ℚ) (1/2 + (mcount : ℚ) * (2/10))
        if best.2 < confidence then (entry.1, confidence) else best
      else best)
    (RecommendationCategory.other, 3/10)

/-! ### Value extraction (`_extract_values`)

Each extractor is the scan performed by `re.findall` for the corresponding
pattern, written as a fuelled left-to-right scanner; the fuel is the text
length, which bounds the number of scan steps since every step consumes at
least one character. -/

/-- Maximal digit prefix (greedy `\d+`). -/
def takeDigits : List Char → List Char × List Char
  | [] => ([], [])
  | c :: t =>
    if c.isDigit then
      let r := takeDigits t
      (c :: r.1, r.2)
    else ([], c :: t)

/-- Skip whitespace (`\s*`). -/
def dropWs : List Char → List Char := List.dropWhile Char.isWhitespace

/-- Natural number denoted by a digit run. -/
def digitsToNat (l : List Char) : ℕ :=
  l.foldl (fun a c => a * 10 + (c.toNat - 48)) 0

/-- Rational denoted by integer digits `ip` and fraction digits `fp`
(the exact value of Python `float("ip.fp")` for the decimals occurring
here). -/
def decToQ (ip fp : List Char) : ℚ :=
  (digitsToNat ip : ℚ) + (digitsToNat fp : ℚ) / ((10 : ℚ) ^ fp.length)

/-- One attempt of `\$(\d+(?:\.\d{2})?)` at the current position: a `$`,
greedy digits, then optionally a dot and exactly two digits.  Returns the
captured value and the remainder after the match. -/
def tryDollarAt : List Char → Option (ℚ × List Char)
  | '$' :: t =>
    let p := takeDigits t
    if p.1 = [] then none
    else
      match p.2 with
      | '.' :: a :: b :: rest =>
        if a.isDigit && b.isDigit then some (decToQ p.1 [a, b], rest)
        else some (decToQ p.1 [], p.2)
      | r => some (decToQ p.1 [], r)
  | _ => none

/-- `re.findall(r'\$(\d+(?:\.\d{2})?)', text)` as values. -/
def scanDollarsF : ℕ → List Char → List ℚ
  | 0, _ => []
  | _ + 1, [] => []
  | fuel + 1, c :: t =>
    match tryDollarAt (c :: t) with
    | some (q, rest) => q :: scanDollarsF fuel rest
    | none => scanDollarsF fuel t

def scanDollars (t : List Char) : List ℚ := scanDollarsF t.length t

/-- One attempt of `(\d+(?:\.\d+)?)\s*%` at the current position. -/
def tryPercentAt (l : List Char) : Option (ℚ × List Char) :=
  let p := takeDigits l
  if p.1 = [] then none
  else
    let noFrac : Option (ℚ × List Char) :=
      match dropWs p.2 with
      | '%' :: rest => some (decToQ p.1 [], rest)
      | _ => none
    match p.2 with
    | '.' :: r1 =>
      let f := takeDigits r1
      if f.1 = [] then noFrac
      else
        match dropWs f.2 with
        | '%' :: rest => some (decToQ p.1 f.1, rest)
        | _ => noFrac
    | _ => noFrac

/-- `re.findall(r'(\d+(?:\.\d+)?)\s*%', text)` as values. -/
def scanPercentsF : ℕ → List Char → List ℚ
  | 0, _ => []
  | _ + 1, [] => []
  | fuel + 1, c :: t =>
    match tryPercentAt (c :: t) with
    | some (q, rest) => q :: scanPercentsF fuel rest
    | none => scanPercentsF fuel t

def scanPercents (t : List Char) : List ℚ := scanPercentsF t.length t

/-- One attempt of `(\d+)\s*UNITs?` at the current position (`UNIT` is
`hour` or `mile`); the optional trailing `s` is consumed greedily. -/
def tryUnitAt (unit : List Char) (l : List Char) : Option (ℤ × List Char) :=
  let p := takeDigits l
  if p.1 = [] then none
  else
    let r := dropWs p.2
    if unit.isPrefixOf r then
      let r2 := r.drop unit.length
      match r2 with
      | 's' :: rest => some ((digitsToNat p.1 : ℤ), rest)
      | _ => some ((digitsToNat p.1 : ℤ), r2)
    else none

/-- `re.findall(r'(\d+)\s*UNITs?', text)` as integers. -/
def scanUnitsF (unit : List Char) : ℕ → List Char → List ℤ
  | 0, _ => []
  | _ + 1, [] => []
  | fuel + 1, c :: t =>
    match tryUnitAt unit (c :: t) with
    | some (n, rest) => n :: scanUnitsF unit fuel rest
    | none => scanUnitsF unit fuel t

def scanUnits (unit : String) (t : List Char) : List ℤ :=
  scanUnitsF unit.data t.length t

/-- The capture group `([A-Z]?\d{4,})` at the current position: an optional
upper-case letter followed by at least four greedy digits. -/
def tryWorkerIdAt : List Char → Option (String × List Char)
  | [] => none
  | c :: t =>
    if 'A' ≤ c && c ≤ 'Z' then
      let p := takeDigits t
      if 4 ≤ p.1.length then some (String.mk (c :: p.1), p.2) else none
    else
      let p := takeDigits (c :: t)
      if 4 ≤ p.1.length then some (String.mk p.1, p.2) else none

/-- Lazy `.*?` search for the id group: first position at which the group
matches. -/
def findWorkerIdFrom : ℕ → List Char → Option (String × List Char)
  | 0, _ => none
  | _ + 1, [] => none
  | fuel + 1, c :: t =>
    match tryWorkerIdAt (c :: t) with
    | some x => some x
    | none => findWorkerIdFrom fuel t

/-- `re.findall(r'[Ww]orker.*?([A-Z]?\d{4,})', text)` (over the original,
non-lowered text; `.` not matching a newline is irrelevant for the
single-line recommendation strings modelled here). -/
def scanWorkersF : ℕ → List Char → List String
  | 0, _ => []
  | _ + 1, [] => []
  | fuel + 1, c :: t =>
    if ("worker".data.isPrefixOf (c :: t) || "Worker".data.isPrefixOf (c :: t)) then
      match findWorkerIdFrom fuel ((c :: t).drop 6) with
      | some (id, rest) => id :: scanWorkersF fuel rest
      | none => scanWorkersF fuel t
    else scanWorkersF fuel t

def scanWorkers (t : List Char) : List String := scanWorkersF t.length t

/-! ### Dynamic values dictionary -/

/-- A Python value stored in the classifier's `extracted_values` dict:
`_extract_values` stores lists of floats, ints or strings; the escalation
parser stores plain strings. -/
inductive PyVal
  | numList (qs : List ℚ)
  | intList (ns : List ℤ)
  | strList (ss : List String)
  | pystr (s : String)
deriving Repr, DecidableEq

/-- Insert-or-overwrite, keeping the original key position (CPython dict
update semantics). -/
def dictInsert {α : Type} (m : List (String × α)) (k : String) (v : α) :
    List (String × α) :=
  if m.any (fun p => p.1 = k) then
    m.map (fun p => if p.1 = k then (k, v) else p)
  else m ++ [(k, v)]

/-- Key lookup. -/
def dictLookup {α : Type} (m : List (String × α)) (k : String) : Option α :=
  (m.find? (fun p => p.1 = k)).map (fun p => p.2)

abbrev Values := List (String × PyVal)

/-- `_extract_values`: each regex family contributes a key only when it
found at least one match. -/
def extractValues (text : String) : Values :=
  let t := text.data
  let v : Values := []
  let d := scanDollars t
  let v := if d = [] then v else v ++ [("wage_amounts", PyVal.numList d)]
  let p := scanPercents t
  let v := if p = [] then v else v ++ [("percentages", PyVal.numList p)]
  let h := scanUnits "hour" t
  let v := if h = [] then v else v ++ [("hours", PyVal.intList h)]
  let mi := scanUnits "mile" t
  let v := if mi = [] then v else v ++ [("miles", PyVal.intList mi)]
  let w := scanWorkers t
  let v := if w = [] then v else v ++ [("worker_ids", PyVal.strList w)]
  v

/-! ### Priority determination (`_determine_priority`) -/

/-- `any(x > bound for x in v)` under Python dynamic typing: numeric lists
compare fine; iterating a non-empty string (or list of strings) compares a
`str` with an `int` at the first element and raises `TypeError`; `any` over
an empty iterable is `False`. -/
def pyAnyGT (v : PyVal) (bound : ℚ) : Except PyErr Bool :=
  match v with
  | .numList qs => .ok (qs.any fun q => bound < q)
  | .intList ns => .ok (ns.any fun n => bound < (n : ℚ))
  | .strList ss => if ss.isEmpty then .ok false else .error .typeError
  | .pystr s => if s.isEmpty then .ok false else .error .typeError

/-- `any(x < bound for x in v)`, same dynamic-typing behaviour. -/
def pyAnyLT (v : PyVal) (bound : ℚ) : Except PyErr Bool :=
  match v with
  | .numList qs => .ok (qs.any fun q => q < bound)
  | .intList ns => .ok (ns.any fun n => (n : ℚ) < bound)
  | .strList ss => if ss.isEmpty then .ok false else .error .typeError
  | .pystr s => if s.isEmpty then .ok false else .error .typeError

def urgentWords : List String := ["immediate", "urgent", "critical", "now", "asap"]

/-- `_determine_priority`. -/
def determinePriority (text : String) (category : RecommendationCategory)
    (values : Values) : Except PyErr String :=
  let textLower := lowerStr text.data
  if urgentWords.any (fun w => containsSub textLower w.data) then .ok "HIGH"
  else if category = .urgent_action then .ok "HIGH"
  else if category = .wage_adjustment then
    match dictLookup values "percentages" with
    | some v => do
      if (← pyAnyGT v 20) then .ok "HIGH" else .ok "MEDIUM"
    | none => .ok "MEDIUM"
  else if category = .worker_quality then
    if (dictLookup values "worker_ids").isSome then .ok "HIGH" else .ok "MEDIUM"
  else if category = .lead_time then
    match dictLookup values "hours" with
    | some v => do
      if (← pyAnyLT v 24) then .ok "HIGH" else .ok "MEDIUM"
    | none => .ok "MEDIUM"
  else .ok "MEDIUM"

/-! ### Action synthesis (`_generate_specific_action`) -/

/-- Render a rational the way `str(float)` renders the terminating decimals
produced by this code (`15.0`, `18.5`); rationals without a short decimal
expansion are rendered as fractions (no modelled code path produces them).
The shortest-roundtrip subtleties of Python float repr do not arise for
these values. -/
def pyFloatStr (q : ℚ) : String :=
  let sign := if q < 0 then "-" else ""
  let n := q.num.natAbs
  let d := q.den
  match (List.range 21).find? (fun k => d ∣ 10 ^ k) with
  | some k =>
    let scaled := n * (10 ^ k / d)
    let ip := scaled / 10 ^ k
    let fp := scaled % 10 ^ k
    let fpDigits := (toString fp).data
    let padded := List.replicate (k - fpDigits.length) '0' ++ fpDigits
    let stripped := (padded.reverse.dropWhile (fun c => c = '0')).reverse
    let frac := if stripped = [] then "0" else String.mk stripped
    sign ++ toString ip ++ "." ++ frac
  | none => sign ++ toString n ++ "/" ++ toString d

/-- `len(v)` on a dict value. -/
def pyValLen (v : PyVal) : ℕ :=
  match v with
  | .numList l => l.length
  | .intList l => l.length
  | .strList l => l.length
  | .pystr s => s.length

/-- `str(v[i])` rendering, used only under a length guard in the source, so
out-of-range access is modelled with a default. -/
def pyIndexStr (v : PyVal) (i : ℕ) : String :=
  match v with
  | .numList l => pyFloatStr (l.getD i 0)
  | .intList l => toString (l.getD i 0)
  | .strList l => l.getD i ""
  | .pystr s => String.mk [s.data.getD i ' ']

/-- `str(max(v))`: `max` of an empty iterable raises `ValueError`; `max` of
a string is its largest character, of a list of strings its lexicographic
maximum. -/
def pyMaxStr (v : PyVal) : Except PyErr String :=
  match v with
  | .intList [] => .error .valueError
  | .intList (n :: ns) => .ok (toString (ns.foldl max n))
  | .numList [] => .error .valueError
  | .numList (q :: qs) => .ok (pyFloatStr (qs.foldl max q))
  | .strList [] => .error .valueError
  | .strList (s :: ss) =>
    .ok (ss.foldl (fun a b => if a < b then b else a) s)
  | .pystr s =>
    match s.data with
    | [] => .error .valueError
    | c :: cs => .ok (String.mk [cs.foldl max c])

/-- `", ".join(v)`: joining a string joins its characters; joining a list of
non-strings raises `TypeError`. -/
def pyJoin (v : PyVal) : Except PyErr String :=
  match v with
  | .strList ss => .ok (String.intercalate ", " ss)
  | .pystr s => .ok (String.intercalate ", " (s.data.map fun c => String.mk [c]))
  | _ => .error .typeError

/-- `_generate_specific_action`. -/
def generateSpecificAction (category : RecommendationCategory) (values : Values)
    (originalText : String) : Except PyErr String :=
  if category = .wage_adjustment then
    match dictLookup values "wage_amounts" with
    | some v =>
      if 2 ≤ pyValLen v then
        .ok ("Update wage from $" ++ pyIndexStr v 0 ++ " to $" ++ pyIndexStr v 1)
      else .ok "Review and adjust wage to market rate"
    | none => .ok "Review and adjust wage to market rate"
  else if category = .lead_time then
    match dictLookup values "hours" with
    | some v => do
      .ok ("Post shifts at least " ++ (← pyMaxStr v) ++ " hours in advance")
    | none => .ok "Increase shift posting lead time"
  else if category = .geographic_expansion then
    match dictLookup values "miles" with
    | some v => do
      .ok ("Expand worker search radius to " ++ (← pyMaxStr v) ++ " miles")
    | none => .ok "Expand geographic search radius"
  else if category = .worker_quality then
    match dictLookup values "worker_ids" with
    | some v => do
      .ok ("Contact workers immediately: " ++ (← pyJoin v))
    | none => .ok "Review and contact high-risk workers"
  else if category = .requirement_barriers then
    .ok "Review and potentially relax job requirements"
  else if category = .shift_timing then
    .ok "Adjust shift timing to match worker availability"
  else if category = .supply_demand then
    .ok "Increase worker pool or adjust demand"
  else if category = .urgent_action then
    .ok originalText
  else
    .ok "Review recommendation for custom action"

/-! ### Escalation (`_claude_classify`)

The external call is modelled by an oracle response `Option String`: `none`
models `call_claude` raising, `some s` models it returning `s`. -/

/-- The whitespace set of Python `str.strip()` with no argument: the Unicode
whitespace characters, which beyond ASCII `\t\n\v\f\r ` include the
separators `\x1c`–`\x1f`, `\x85`, `\xa0` and the non-ASCII space
characters. -/
def pyStripSpace (c : Char) : Bool :=
  let n := c.toNat
  decide ((9 ≤ n ∧ n ≤ 13) ∨ n = 32 ∨ (28 ≤ n ∧ n ≤ 31) ∨ n = 133 ∨
    n = 160 ∨ n = 0x1680 ∨ (0x2000 ≤ n ∧ n ≤ 0x200a) ∨ n = 0x2028 ∨
    n = 0x2029 ∨ n = 0x202f ∨ n = 0x205f ∨ n = 0x3000)

/-- Python `s.strip()` with no argument. -/
def pyStrip (s : String) : String :=
  String.mk (((s.data.dropWhile pyStripSpace).reverse.dropWhile
    pyStripSpace).reverse)

/-- The surrounding whitespace `float()` itself ignores: the same set as
`str.strip()` except the `\x1c`–`\x1f` separators, which `float()` rejects
(in the source `float()` is only applied to already-stripped strings, so
the difference never bites there). -/
def pyFloatSpace (c : Char) : Bool :=
  let n := c.toNat
  decide ((9 ≤ n ∧ n ≤ 13) ∨ n = 32 ∨ n = 133 ∨ n = 160 ∨ n = 0x1680 ∨
    (0x2000 ≤ n ∧ n ≤ 0x200a) ∨ n = 0x2028 ∨ n = 0x2029 ∨ n = 0x202f ∨
    n = 0x205f ∨ n = 0x3000)

/-- Continuation of a `digitpart` after its first digit: further digits with
single underscores allowed strictly between digits (`digit (["_"] digit)*`).
Returns the digits consumed (underscores dropped) and the remainder. -/
def takeDigitPartAux : List Char → List Char × List Char
  | [] => ([], [])
  | '_' :: rest =>
    match rest with
    | [] => ([], ['_'])
    | c :: t =>
      if c.isDigit then
        let r := takeDigitPartAux t
        (c :: r.1, r.2)
      else ([], '_' :: c :: t)
  | c :: t =>
    if c.isDigit then
      let r := takeDigitPartAux t
      (c :: r.1, r.2)
    else ([], c :: t)

/-- A full `digitpart` (at least one digit, single underscores between
digits); `none` if the input does not start with a digit. -/
def takeDigitPart (l : List Char) : Option (List Char × List Char) :=
  match l with
  | [] => none
  | c :: t =>
    if c.isDigit then
      let r := takeDigitPartAux t
      some (c :: r.1, r.2)
    else none

/-- Case-insensitive comparison of a character list with an ASCII keyword. -/
def lowerEq (l : List Char) (w : String) : Bool := lowerStr l == w.data

/-- The value of Python `float()`: a finite value (exact rational) or one of
the non-finite IEEE values. -/
inductive PyFloatVal
  | finite (q : ℚ)
  | pinf
  | ninf
  | nan
deriving Repr, DecidableEq

/-- The body of a finite Python float literal, after sign removal:
`digitpart ["." [digitpart]] | "." digitpart`, then an optional exponent
`("e"|"E") [sign] digitpart`, with the whole input consumed.  The value is
exact: `mantissa * 10 ^ exponent` in `ℚ`. -/
def parseFloatBody (l : List Char) : Option ℚ :=
  let core : Option (List Char × List Char × List Char) :=
    match takeDigitPart l with
    | some (ds, r) =>
      match r with
      | '.' :: r2 =>
        match takeDigitPart r2 with
        | some (fs, r3) => some (ds, fs, r3)
        | none => some (ds, [], r2)
      | _ => some (ds, [], r)
    | none =>
      match l with
      | '.' :: r2 =>
        match takeDigitPart r2 with
        | some (fs, r3) => some ([], fs, r3)
        | none => none
      | _ => none
  match core with
  | none => none
  | some (ds, fs, rest) =>
    match rest with
    | [] => some (decToQ ds fs)
    | e :: r4 =>
      if e = 'e' ∨ e = 'E' then
        let se : Bool × List Char :=
          match r4 with
          | '+' :: r5 => (false, r5)
          | '-' :: r5 => (true, r5)
          | r5 => (false, r5)
        match takeDigitPart se.2 with
        | some (es, []) =>
          let ex : ℤ :=
            if se.1 then -(digitsToNat es : ℤ) else (digitsToNat es : ℤ)
          some (decToQ ds fs * (10 : ℚ) ^ ex)
        | _ => none
      else none

/-- Python `float(s)` on `str` input: strip surrounding whitespace, take an
optional sign, then either a case-insensitive `inf`/`infinity`/`nan` or a
finite literal (digits with single underscores between them, optional
fraction, optional decimal exponent); everything else raises `ValueError`,
modelled as `none`.  CPython additionally transforms non-ASCII Unicode
decimal digits to ASCII before parsing; that transformation is outside this
character-level model, so theorems that rely on the exact success/failure
boundary of the parse carry an ASCII-input hypothesis. -/
def pyFloat (s : String) : Option PyFloatVal :=
  let l := ((s.data.dropWhile pyFloatSpace).reverse.dropWhile
    pyFloatSpace).reverse
  let sb : Bool × List Char :=
    match l with
    | '+' :: r => (false, r)
    | '-' :: r => (true, r)
    | r => (false, r)
  let neg := sb.1
  let body := sb.2
  if lowerEq body "inf" || lowerEq body "infinity" then
    some (if neg then .ninf else .pinf)
  else if lowerEq body "nan" then
    some .nan
  else
    match parseFloatBody body with
    | some q => some (.finite (if neg then -q else q))
    | none => none

/-- The rational stored in the `ℚ`-valued confidence field for a parsed
Python float: finite values are exact; the non-finite values, which have no
rational counterpart, are represented by `0`.  The code under verification
never branches on, compares, or re-reads an escalated confidence inside the
classifier, so only the success/failure of the parse — which is modelled
faithfully — feeds the verified control flow. -/
def pyFloatToRat : PyFloatVal → ℚ
  | .finite q => q
  | _ => 0

/-- `s` is pure ASCII: on such strings the character-level models of
`strip`/`lower`/`upper`/`float` coincide with CPython, which transforms
non-ASCII Unicode decimal digits and spaces before numeric parsing. -/
def asciiOnly (s : String) : Prop := ∀ c ∈ s.data, c.toNat < 128

/-- `pair.split(':', 1)`. -/
def splitFirstColon (s : String) : String × String :=
  let p := s.data.span (fun c => c ≠ ':')
  (String.mk p.1, String.mk (p.2.drop 1))

/-- The values dict parsed from `parts[2]` of the escalation response. -/
def claudeParseValues (part : String) : Values :=
  (part.splitOn ",").foldl
    (fun vs pair =>
      if containsSub pair.data [':'] then
        let kv := splitFirstColon pair
        dictInsert vs (pyStrip kv.1).toLower (PyVal.pystr (pyStrip kv.2))
      else vs)
    []

/-- Successful parse of the `CATEGORY|CONFIDENCE|key:val,...` response;
`none` covers both `len(parts) < 2` and a `float()` failure, which reach the
same fallback line in the source. -/
def parseClaudeResponse (resp : String) : Option (RecommendationCategory × ℚ × Values) :=
  let parts := (pyStrip resp).splitOn "|"
  if 2 ≤ parts.length then
    let categoryStr := (pyStrip (parts.getD 0 "")).toUpper
    match pyFloat (pyStrip (parts.getD 1 "")) with
    | none => none
    | some confidence =>
      let category := (categoryFromName categoryStr).getD RecommendationCategory.other
      let values :=
        if 2 < parts.length then claudeParseValues (parts.getD 2 "") else []
      some (category, pyFloatToRat confidence, values)
  else none

/-- `_claude_classify`: on a failed call or failed parse, fall back to
`(pattern category, 0.5, {})`. -/
def claudeClassify (recommendation : String) (resp : Option String) :
    RecommendationCategory × ℚ × Values :=
  match resp with
  | none => ((patternMatchCategory recommendation).1, 1/2, [])
  | some r =>
    match parseClaudeResponse r with
    | some out => out
    | none => ((patternMatchCategory recommendation).1, 1/2, [])

/-! ### Classifier entry points -/

/-- `ClassificationResult` dataclass. -/
structure ClassificationResult where
  category : RecommendationCategory
  confidence : ℚ
  extracted_values : Values
  action_priority : String
  specific_action : String
  original_recommendation : String
deriving Repr, DecidableEq

/-- `_classify_single_recommendation`, parameterized by the escalation
oracle response used if the heuristic confidence is below 0.7. -/
def classifySingleRecommendation (recommendation : String)
    (claudeResp : Option String) : Except PyErr ClassificationResult :=
  let pm := patternMatchCategory recommendation
  let extracted := extractValues recommendation
  let cv :=
    if pm.2 < 7/10 then claudeClassify recommendation claudeResp
    else (pm.1, pm.2, extracted)
  do
    let priority ← determinePriority recommendation cv.1 cv.2.2
    let action ← generateSpecificAction cv.1 cv.2.2 recommendation
    .ok { category := cv.1, confidence := cv.2.1, extracted_values := cv.2.2,
          action_priority := priority, specific_action := action,
          original_recommendation := recommendation }

/-- `classify_recommendations`: one result per input, in order; an exception
in any single classification propagates (there is no try/except in this
loop). -/
def classifyRecommendations (recommendations : List String)
    (claudeResp : String → Option String) : Except PyErr (List ClassificationResult) :=
  recommendations.mapM (fun r => classifySingleRecommendation r (claudeResp r))

/-! ### Concrete inputs used by the claims -/

/-- The worked example from the specification. -/
def c1Text : String := "Increase pay from $15.00 to $18.50 to improve fill rate"

/-- The classification result the code produces for the example text when
the escalation result is discarded (failed call or failed parse). -/
def c1FallbackResult : ClassificationResult :=
  { category := RecommendationCategory.other
    confidence := 1/2
    extracted_values := []
    action_priority := "MEDIUM"
    specific_action := "Review recommendation for custom action"
    original_recommendation := c1Text }

/-! ### Evaluation lemmas shared by several proofs -/

lemma exceptOk_bind {e : Type} {a b : Type} (x : a) (f : a → Except e b) :
    (Except.ok x : Except e a) >>= f = f x := rfl

lemma exceptErr_bind {e : Type} {a b : Type} (x : e) (f : a → Except e b) :
    (Except.error x : Except e a) >>= f = Except.error x := rfl

lemma dictLookup_nil {α : Type} (k : String) :
    dictLookup ([] : List (String × α)) k = none := rfl

set_option maxHeartbeats 4000000 in
/-- The heuristic pass on the example text: no pattern family matches, so
the default `(OTHER, 0.3)` survives. -/
lemma pmCat_c1 : patternMatchCategory c1Text = (RecommendationCategory.other, 3/10) := by
  with_unfolding_all decide

set_option maxHeartbeats 1000000 in
/-- `_extract_values` on the example text finds the two wage amounts. -/
lemma extract_c1 :
    extractValues c1Text = [("wage_amounts", PyVal.numList [15, 37/2])] := by
  with_unfolding_all decide

set_option maxHeartbeats 1000000 in
/-- The example text contains none of the urgency keywords. -/
lemma urgent_c1 :
    urgentWords.any (fun w => containsSub (lowerStr c1Text.data) w.data) = false := by
  with_unfolding_all decide

lemma priority_c1_other :
    determinePriority c1Text RecommendationCategory.other [] = .ok "MEDIUM" := by
  unfold determinePriority
  simp [urgent_c1, dictLookup_nil]

lemma action_other (t : String) :
    generateSpecificAction RecommendationCategory.other [] t =
      .ok "Review recommendation for custom action" := rfl

/-- Any escalation response on which `_claude_classify` falls back produces
the same final result for the example text. -/
lemma classify_c1_fallback (resp : Option String)
    (h : claudeClassify c1Text resp =
      (RecommendationCategory.other, 1/2, ([] : Values))) :
    classifySingleRecommendation c1Text resp = .ok c1FallbackResult := by
  unfold classifySingleRecommendation
  rw [pmCat_c1]
  norm_num
  rw [h, priority_c1_other, exceptOk_bind, action_other, exceptOk_bind]
  rfl

lemma classify_c1_none :
    classifySingleRecommendation c1Text none = .ok c1FallbackResult := by
  apply classify_c1_fallback
  simp [claudeClassify, pmCat_c1]

set_option maxHeartbeats 1000000 in
lemma parse_garbage : parseClaudeResponse "garbage" = none := by
  with_unfolding_all decide

set_option maxHeartbeats 1000000 in
set_option maxRecDepth 8192 in
/-- Exponent-form confidences are parsed, not routed to the fallback:
`float("1e3")` succeeds with value 1000. -/
lemma parse_exponent :
    parseClaudeResponse "OTHER|1e3" =
      some (RecommendationCategory.other, 1000, []) := by
  with_unfolding_all decide

lemma classify_c1_garbage :
    classifySingleRecommendation c1Text (some "garbage") = .ok c1FallbackResult := by
  apply classify_c1_fallback
  simp [claudeClassify, parse_garbage, pmCat_c1]

/-- C1: the spec's example claims the text classifies as WAGE_ADJUSTMENT
with `wage_amounts = [15.0, 18.5]` and priority HIGH.  On the code, the
heuristic pass matches no pattern, so classification takes the escalation
path; with a failed escalation call the result is category OTHER,
confidence 0.5, empty extracted values and priority MEDIUM — none of the
claimed values. -/
theorem C1_counterexample :
    classifySingleRecommendation c1Text none = .ok c1FallbackResult ∧
    c1FallbackResult.category ≠ RecommendationCategory.wage_adjustment ∧
    dictLookup c1FallbackResult.extracted_values "wage_amounts" ≠
      some (PyVal.numList [15, 37/2]) ∧
    c1FallbackResult.action_priority ≠ "HIGH" := by
  refine ⟨classify_c1_none, by decide, by decide, by decide⟩

/-- C3: with the escalation path taken (heuristic confidence 0.3 < 0.7) and
a malformed escalation response, the classifier does NOT keep the heuristic
result unchanged: the confidence becomes the fixed fallback 0.5 (not the
heuristic 0.3) and the locally extracted values (here
`wage_amounts = [15.0, 18.5]`) are replaced by the empty dict. -/
theorem C3_counterexample :
    (patternMatchCategory c1Text).2 = 3/10 ∧
    extractValues c1Text = [("wage_amounts", PyVal.numList [15, 37/2])] ∧
    classifySingleRecommendation c1Text (some "garbage") = .ok c1FallbackResult ∧
    c1FallbackResult.confidence ≠ (patternMatchCategory c1Text).2 ∧
    c1FallbackResult.extracted_values ≠ extractValues c1Text := by
  refine ⟨by rw [pmCat_c1], extract_c1, classify_c1_garbage, ?_, ?_⟩
  · rw [pmCat_c1]; norm_num [c1FallbackResult]
  · rw [extract_c1]; simp [c1FallbackResult]

set_option maxHeartbeats 4000000 in
/-- C4: the escalation response `WAGE_ADJUSTMENT|0.9|percentages:25` (a
well-formed `category|confidence|key:value` response) makes
`_determine_priority` iterate the string-typed value `"25"` and compare a
character with the integer 20, raising a `TypeError` that propagates out of
`classify_recommendations` — refuting "never raises" for the non-empty
input list `["hello"]`. -/
theorem C4_counterexample :
    classifyRecommendations ["hello"]
        (fun _ => some "WAGE_ADJUSTMENT|0.9|percentages:25") =
      Except.error PyErr.typeError ∧
    "hello" ≠ "" := by
  refine ⟨by with_unfolding_all rfl, by decide⟩

/-! ### Structural lemmas about the escalation values -/

lemma foldl_preserve {α β : Type} (P : β → Prop) (f : β → α → β)
    (hf : ∀ b a, P b → P (f b a)) :
    ∀ (l : List α) (b : β), P b → P (l.foldl f b)
  | [], _, hb => hb
  | a :: l, b, hb => foldl_preserve P f hf l (f b a) (hf b a hb)

lemma dictInsert_mem {α : Type} {m : List (String × α)} {k : String} {v : α}
    {p : String × α} (hp : p ∈ dictInsert m k v) : p ∈ m ∨ p = (k, v) := by
  unfold dictInsert at hp
  split at hp
  · obtain ⟨q, hq, hpq⟩ := List.mem_map.1 hp
    by_cases h : q.1 = k
    · right; rw [if_pos h] at hpq; exact hpq.symm
    · left; rw [if_neg h] at hpq; exact hpq ▸ hq
  · rcases List.mem_append.1 hp with h | h
    · left; exact h
    · right; simpa using h

lemma dictLookup_mem {α : Type} {m : List (String × α)} {k : String} {v : α}
    (h : dictLookup m k = some v) : (k, v) ∈ m := by
  unfold dictLookup at h
  cases hf : m.find? (fun p => p.1 = k) with
  | none => rw [hf] at h; cases h
  | some q =>
    rw [hf] at h
    have h1 : q ∈ m := List.mem_of_find?_eq_some hf
    have h2 : q.1 = k := by simpa using List.find?_some hf
    obtain ⟨k1, v1⟩ := q
    have h3 : v1 = v := by simpa using h
    have h4 : k1 = k := h2
    subst h3; subst h4
    exact h1

/-- Every value the escalation parser stores is a plain string. -/
lemma claudeParseValues_pystr (part : String) :
    ∀ p ∈ claudeParseValues part, ∃ s, p.2 = PyVal.pystr s := by
  unfold claudeParseValues
  refine foldl_preserve
    (fun vs : Values => ∀ p ∈ vs, ∃ s, p.2 = PyVal.pystr s) _ ?_ _ _ ?_
  · intro b a hb
    split
    · intro p hp
      rcases dictInsert_mem hp with h | h
      · exact hb p h
      · exact ⟨_, by rw [h]⟩
    · exact hb
  · intro p hp; cases hp

lemma parseClaudeResponse_values_pystr (s : String)
    (out : RecommendationCategory × ℚ × Values)
    (h : parseClaudeResponse s = some out) :
    ∀ p ∈ out.2.2, ∃ w, p.2 = PyVal.pystr w := by
  simp only [parseClaudeResponse] at h
  split at h
  · cases hf : pyFloat (pyStrip (((pyStrip s).splitOn "|").getD 1 "")) with
    | none => rw [hf] at h; cases h
    | some q =>
      rw [hf] at h
      simp only [Option.some.injEq] at h
      subst h
      simp only
      split
      · exact claudeParseValues_pystr _
      · intro p hp; cases hp
  · cases h

/-- On the escalation path, every stored extracted value is a plain string
(the parser's strings) — or there are none at all (the fallback). -/
lemma claudeClassify_values_pystr (t : String) (resp : Option String) :
    ∀ p ∈ (claudeClassify t resp).2.2, ∃ w, p.2 = PyVal.pystr w := by
  cases resp with
  | none => intro p hp; simp [claudeClassify] at hp
  | some r =>
    cases hp : parseClaudeResponse r with
    | none =>
      intro p hp2
      simp [claudeClassify, hp] at hp2
    | some out =>
      intro p hp2
      simp only [claudeClassify, hp] at hp2
      exact parseClaudeResponse_values_pystr r out hp p hp2

/-- The final fields of a successful classification, on the escalation
branch. -/
lemma classifySingle_fields (t : String) (resp : Option String)
    (r : ClassificationResult)
    (hlow : (patternMatchCategory t).2 < 7/10)
    (h : classifySingleRecommendation t resp = .ok r) :
    r.extracted_values = (claudeClassify t resp).2.2 ∧
    r.category = (claudeClassify t resp).1 ∧
    r.confidence = (claudeClassify t resp).2.1 := by
  simp only [classifySingleRecommendation] at h
  rw [if_pos hlow] at h
  cases hd : determinePriority t (claudeClassify t resp).1 (claudeClassify t resp).2.2 with
  | error e => rw [hd, exceptErr_bind] at h; cases h
  | ok p =>
    rw [hd, exceptOk_bind] at h
    cases ha : generateSpecificAction (claudeClassify t resp).1
        (claudeClassify t resp).2.2 t with
    | error e => rw [ha, exceptErr_bind] at h; cases h
    | ok a =>
      rw [ha, exceptOk_bind] at h
      cases h
      exact ⟨rfl, rfl, rfl⟩

set_option maxHeartbeats 1000000 in
/-- C1, amended to what the code does with the example text: the heuristic
pass yields `(OTHER, 0.3)`, so escalation always runs; `_extract_values`
does find `wage_amounts = [15.0, 18.5]`, but whatever the escalation
response, the final result can never simultaneously carry category
WAGE_ADJUSTMENT, the numeric `wage_amounts = [15.0, 18.5]`, and priority
HIGH — in particular because every value surviving the escalation path is a
plain string, never a numeric list. -/
theorem C1_amended :
    patternMatchCategory c1Text = (RecommendationCategory.other, 3/10) ∧
    extractValues c1Text = [("wage_amounts", PyVal.numList [15, 37/2])] ∧
    ∀ (resp : Option String) (r : ClassificationResult),
      classifySingleRecommendation c1Text resp = .ok r →
      ¬ (r.category = RecommendationCategory.wage_adjustment ∧
         dictLookup r.extracted_values "wage_amounts" =
           some (PyVal.numList [15, 37/2]) ∧
         r.action_priority = "HIGH") := by
  refine ⟨pmCat_c1, extract_c1, ?_⟩
  rintro resp r hr ⟨-, hwage, -⟩
  have hlow : (patternMatchCategory c1Text).2 < 7/10 := by rw [pmCat_c1]; norm_num
  obtain ⟨hvals, -, -⟩ := classifySingle_fields c1Text resp r hlow hr
  rw [hvals] at hwage
  obtain ⟨w, hw⟩ :=
    claudeClassify_values_pystr c1Text resp _ (dictLookup_mem hwage)
  cases hw

/-- Witness for the amended C1: instantiated at the failed-escalation
response, whose classification result is computed concretely. -/
theorem C1_amended_witness :
    ¬ (c1FallbackResult.category = RecommendationCategory.wage_adjustment ∧
       dictLookup c1FallbackResult.extracted_values "wage_amounts" =
         some (PyVal.numList [15, 37/2]) ∧
       c1FallbackResult.action_priority = "HIGH") :=
  C1_amended.2.2 none c1FallbackResult classify_c1_none

/-! ### C3: the failed-escalation fallback, in general -/

lemma determinePriority_empty (t : String) (cat : RecommendationCategory) :
    ∃ p, determinePriority t cat ([] : Values) = .ok p := by
  unfold determinePriority
  simp only [dictLookup_nil]
  repeat' split
  all_goals exact ⟨_, rfl⟩

lemma generateSpecificAction_empty (cat : RecommendationCategory) (t : String) :
    ∃ a, generateSpecificAction cat ([] : Values) t = .ok a := by
  unfold generateSpecificAction
  simp only [dictLookup_nil]
  repeat' split
  all_goals exact ⟨_, rfl⟩

/-- C3, amended: when the escalation path is taken and the call fails or
its (ASCII) response fails to parse — fewer than two `|`-separated parts,
or a confidence field `float()` rejects — the classifier keeps the
heuristic CATEGORY but resets the confidence to the fixed fallback 0.5 (not
the heuristic confidence) and replaces the locally extracted values with
the empty dict; no error propagates in this situation.  (The ASCII
hypothesis confines the statement to the domain on which the modelled
parse boundary coincides with CPython, which also accepts non-ASCII
Unicode digits.) -/
theorem C3_amended :
    ∀ (t : String) (resp : Option String),
      (patternMatchCategory t).2 < 7/10 →
      (resp = none ∨ ∃ s, resp = some s ∧ asciiOnly s ∧
        parseClaudeResponse s = none) →
      ∃ r, classifySingleRecommendation t resp = .ok r ∧
        r.category = (patternMatchCategory t).1 ∧
        r.confidence = 1/2 ∧
        r.extracted_values = [] := by
  intro t resp hlow hresp
  have hcc : claudeClassify t resp =
      ((patternMatchCategory t).1, 1/2, ([] : Values)) := by
    rcases hresp with rfl | ⟨s, rfl, -, hs⟩
    · rfl
    · simp [claudeClassify, hs]
  obtain ⟨p, hp⟩ := determinePriority_empty t (patternMatchCategory t).1
  obtain ⟨a, ha⟩ := generateSpecificAction_empty (patternMatchCategory t).1 t
  refine ⟨⟨(patternMatchCategory t).1, 1/2, [], p, a, t⟩, ?_, rfl, rfl, rfl⟩
  simp only [classifySingleRecommendation, if_pos hlow, hcc]
  simp only [hp, ha, exceptOk_bind]

/-- Witness for the amended C3 at a concrete unmatched text and a failed
escalation call. -/
theorem C3_amended_witness :
    ∃ r, classifySingleRecommendation "zzz" none = .ok r ∧
      r.category = (patternMatchCategory "zzz").1 ∧
      r.confidence = 1/2 ∧
      r.extracted_values = [] :=
  C3_amended "zzz" none (by with_unfolding_all decide) (Or.inl rfl)

/-! ### C4: when classification cannot raise -/

/-- The dynamic-typing conditions under which `_determine_priority` and
`_generate_specific_action` cannot raise on a values dict: every value the
priority and action code iterates, maximises or joins must be well-typed
and non-empty where required. -/
def ValsSafe (values : Values) : Prop :=
  (∀ v, dictLookup values "percentages" = some v → (pyAnyGT v 20).isOk) ∧
  (∀ v, dictLookup values "hours" = some v →
    (pyAnyLT v 24).isOk ∧ (pyMaxStr v).isOk) ∧
  (∀ v, dictLookup values "miles" = some v → (pyMaxStr v).isOk) ∧
  (∀ v, dictLookup values "worker_ids" = some v → (pyJoin v).isOk)

lemma valsSafe_nil : ValsSafe ([] : Values) := by
  refine ⟨?_, ?_, ?_, ?_⟩ <;> intro v hv <;> simp [dictLookup_nil] at hv

lemma bindChoice_ok {b : Except PyErr Bool} (hb : b.isOk = true) (x y : String) :
    ∃ p, (b >>= fun c => if c then (.ok x : Except PyErr String) else .ok y) =
      .ok p := by
  cases b with
  | error e => simp [Except.isOk, Except.toBool] at hb
  | ok c => cases c <;> exact ⟨_, rfl⟩

lemma bind_ok_of_isOk {α β : Type} {m : Except PyErr α} (hm : m.isOk = true)
    (f : α → β) : ∃ b, (m >>= fun x => (.ok (f x) : Except PyErr β)) = .ok b := by
  cases m with
  | error e => simp [Except.isOk, Except.toBool] at hm
  | ok x => exact ⟨f x, rfl⟩

lemma determinePriority_ok (t : String) (cat : RecommendationCategory)
    (values : Values) (hs : ValsSafe values) :
    ∃ p, determinePriority t cat values = .ok p := by
  simp only [determinePriority]
  split
  · exact ⟨_, rfl⟩
  split
  · exact ⟨_, rfl⟩
  split
  · cases hv : dictLookup values "percentages" with
    | none => exact ⟨_, rfl⟩
    | some v => exact bindChoice_ok (hs.1 v hv) _ _
  split
  · split
    · exact ⟨_, rfl⟩
    · exact ⟨_, rfl⟩
  split
  · cases hv : dictLookup values "hours" with
    | none => exact ⟨_, rfl⟩
    | some v => exact bindChoice_ok ((hs.2.1 v hv).1) _ _
  exact ⟨_, rfl⟩

lemma generateSpecificAction_ok (cat : RecommendationCategory)
    (values : Values) (t : String) (hs : ValsSafe values) :
    ∃ a, generateSpecificAction cat values t = .ok a := by
  unfold generateSpecificAction
  split
  · cases hv : dictLookup values "wage_amounts" with
    | none => exact ⟨_, rfl⟩
    | some v =>
      show ∃ a, (if 2 ≤ pyValLen v then
          (Except.ok ("Update wage from $" ++ pyIndexStr v 0 ++ " to $" ++
            pyIndexStr v 1) : Except PyErr String)
        else .ok "Review and adjust wage to market rate") = .ok a
      split <;> exact ⟨_, rfl⟩
  split
  · cases hv : dictLookup values "hours" with
    | none => exact ⟨_, rfl⟩
    | some v => exact bind_ok_of_isOk ((hs.2.1 v hv).2) _
  split
  · cases hv : dictLookup values "miles" with
    | none => exact ⟨_, rfl⟩
    | some v => exact bind_ok_of_isOk (hs.2.2.1 v hv) _
  split
  · cases hv : dictLookup values "worker_ids" with
    | none => exact ⟨_, rfl⟩
    | some v => exact bind_ok_of_isOk (hs.2.2.2 v hv) _
  repeat' split
  all_goals exact ⟨_, rfl⟩

/-- Every entry of `_extract_values` output is one of the five typed,
non-empty value families. -/
lemma extractValues_entry (t : String) :
    ∀ p ∈ extractValues t,
      (p.1 = "wage_amounts" ∧ ∃ qs, p.2 = PyVal.numList qs) ∨
      (p.1 = "percentages" ∧ ∃ qs, p.2 = PyVal.numList qs) ∨
      (p.1 = "hours" ∧ ∃ ns, ns ≠ [] ∧ p.2 = PyVal.intList ns) ∨
      (p.1 = "miles" ∧ ∃ ns, ns ≠ [] ∧ p.2 = PyVal.intList ns) ∨
      (p.1 = "worker_ids" ∧ ∃ ss, p.2 = PyVal.strList ss) := by
  intro p hp
  simp only [extractValues] at hp
  repeat' split at hp
  all_goals simp_all [List.mem_append]
  all_goals rcases hp with h | h | h | h | h <;> simp_all

lemma extractValues_valsSafe (t : String) : ValsSafe (extractValues t) := by
  refine ⟨?_, ?_, ?_, ?_⟩ <;> intro v hv <;>
    rcases extractValues_entry t _ (dictLookup_mem hv) with
      ⟨hk, hshape⟩ | ⟨hk, hshape⟩ | ⟨hk, hshape⟩ | ⟨hk, hshape⟩ | ⟨hk, hshape⟩ <;>
    simp_all
  · obtain ⟨qs, rfl⟩ := hshape; rfl
  · obtain ⟨ns, hne, rfl⟩ := hshape
    refine ⟨rfl, ?_⟩
    cases ns with
    | nil => exact absurd rfl hne
    | cons a l => rfl
  · obtain ⟨ns, hne, rfl⟩ := hshape
    cases ns with
    | nil => exact absurd rfl hne
    | cons a l => rfl
  · obtain ⟨ss, rfl⟩ := hshape; rfl

/-- Safety of an escalation oracle response: it is ASCII (so the modelled
parse boundary coincides with CPython) and whenever it parses, the
resulting values dict is well-typed for the downstream priority/action
code.  (A failed call or failed parse is always safe: the fallback values
dict is empty.) -/
def SafeResp (resp : Option String) : Prop :=
  ∀ s, resp = some s → asciiOnly s ∧
    ∀ out, parseClaudeResponse s = some out → ValsSafe out.2.2

lemma claudeClassify_valsSafe (t : String) (resp : Option String)
    (hsafe : SafeResp resp) : ValsSafe (claudeClassify t resp).2.2 := by
  cases resp with
  | none => exact valsSafe_nil
  | some r =>
    cases hp : parseClaudeResponse r with
    | none =>
      have hc : claudeClassify t (some r) =
          ((patternMatchCategory t).1, 1/2, ([] : Values)) := by
        simp [claudeClassify, hp]
      rw [hc]; exact valsSafe_nil
    | some out =>
      have hc : claudeClassify t (some r) = out := by simp [claudeClassify, hp]
      rw [hc]; exact (hsafe r rfl).2 out hp

lemma classifySingle_ok (t : String) (resp : Option String)
    (hsafe : SafeResp resp) :
    ∃ r, classifySingleRecommendation t resp = .ok r := by
  simp only [classifySingleRecommendation]
  split
  · obtain ⟨p, hp⟩ := determinePriority_ok t (claudeClassify t resp).1
      (claudeClassify t resp).2.2 (claudeClassify_valsSafe t resp hsafe)
    obtain ⟨a, ha⟩ := generateSpecificAction_ok (claudeClassify t resp).1
      (claudeClassify t resp).2.2 t (claudeClassify_valsSafe t resp hsafe)
    exact ⟨_, by simp only [hp, ha, exceptOk_bind]; rfl⟩
  · obtain ⟨p, hp⟩ := determinePriority_ok t (patternMatchCategory t).1
      (extractValues t) (extractValues_valsSafe t)
    obtain ⟨a, ha⟩ := generateSpecificAction_ok (patternMatchCategory t).1
      (extractValues t) t (extractValues_valsSafe t)
    exact ⟨_, by simp only [hp, ha, exceptOk_bind]; rfl⟩

/-- C4, amended: for every list of non-empty recommendation strings and
every escalation oracle whose responses are ASCII and whose successfully
parsed responses carry only values the downstream code can handle (no
`percentages`/`hours` keys with non-empty string values, no empty `miles`
value, ...), classification returns exactly one result per input and
raises nothing.  Without the values proviso the claim is false (see the
TypeError counterexample); the ASCII proviso confines the statement to the
domain where the modelled parse boundary coincides with CPython. -/
theorem C4_amended (recs : List String) (oracle : String → Option String)
    (hne : ∀ r ∈ recs, r ≠ "")
    (hsafe : ∀ t, SafeResp (oracle t)) :
    ∃ l, classifyRecommendations recs oracle = .ok l ∧
      l.length = recs.length := by
  unfold classifyRecommendations
  induction recs with
  | nil => exact ⟨[], rfl, rfl⟩
  | cons hd tl ih =>
    obtain ⟨r, hr⟩ := classifySingle_ok hd (oracle hd) (hsafe hd)
    obtain ⟨l, hl, hlen⟩ := ih (fun x hx => hne x (List.mem_cons_of_mem hd hx))
    refine ⟨r :: l, ?_, by simp [hlen]⟩
    rw [List.mapM_cons, hr]
    simp only [exceptOk_bind]
    rw [hl]
    rfl

/-- Witness for the amended C4: one non-empty recommendation with a failed
escalation call classifies without raising. -/
theorem C4_amended_witness :
    (classifyRecommendations ["hello"] (fun _ => none)).isOk = true := by
  obtain ⟨l, hl, -⟩ := C4_amended ["hello"] (fun _ => none)
    (by intro r hr; simp at hr; subst hr; decide)
    (by intro t s hs; cases hs)
  rw [hl]; rfl

/-! ### Confidence calculator (`confidence.py`)

`RulePattern` in the source carries a pattern string plus a `pattern_type`
tag (`regex`, `keywords`, `exact`); regex-typed patterns are embedded as
their parsed alternation AST (`Regex`), while keyword- and exact-typed
patterns keep the raw string, on which the calculator performs its string
surgery.  Only the fields of `ClassificationRule` that
`calculate_confidence` reads (`patterns`, `confidence_boosts`) are
modelled.  The per-pattern try/except (invalid regex → score 0) has no
counterpart for an already-parsed AST. -/

inductive PatternKind
  | regex (alts : Regex)
  | keywords (raw : String)
  | exact (raw : String)
deriving Repr, DecidableEq

structure RulePattern where
  kind : PatternKind
  weight : ℚ
deriving Repr, DecidableEq

/-- One entry of `confidence_boosts`: the `if_contains` key may be absent
(the condition then contributes nothing); a single string in the config is
the singleton list; `boost` defaults to 0.1 in the source's `dict.get`. -/
structure BoostCondition where
  if_contains : Option (List String)
  boost : ℚ
deriving Repr, DecidableEq

structure ClassificationRule where
  patterns : List RulePattern
  confidence_boosts : List BoostCondition
deriving Repr, DecidableEq

/-- `MatchResult` (the `match_positions` field is presentation-only and
never read by any scoring code, so it is not modelled). -/
structure MatchResult where
  pattern : RulePattern
  matched : Bool
  match_text : String
  normalized_score : ℚ
deriving Repr, DecidableEq

/-- Greedy-backtracking match at the current position: the number of
characters a Python `re` leftmost-greedy match starting here consumes,
`none` when no match starts here. -/
def gmatch : List Piece → List Char → Option ℕ
  | [], _ => some 0
  | Piece.lit s :: ps, t =>
    if s.isPrefixOf t then (gmatch ps (t.drop s.length)).map (· + s.length)
    else none
  | Piece.digits :: ps, t =>
    let d := takeDigits t
    if d.1 = [] then none
    else
      ((List.range d.1.length).reverse.map (· + 1)).findSome? fun k =>
        (gmatch ps (t.drop k)).map (· + k)
  | Piece.gap :: ps, t =>
    ((List.range (t.length + 1)).reverse).findSome? fun j =>
      (gmatch ps (t.drop j)).map (· + j)

/-- Leftmost alternative match at the current position. -/
def matchAt (alts : Regex) (t : List Char) : Option ℕ :=
  alts.findSome? fun ps => gmatch ps t

/-- `re.finditer`: the texts of the non-overlapping matches, scanning left
to right and resuming after each match (advancing one character on a
zero-width match, as Python does). -/
def finditerTexts (alts : Regex) : List Char → List (List Char)
  | [] =>
    match matchAt alts [] with
    | some _ => [[]]
    | none => []
  | c :: r =>
    match matchAt alts (c :: r) with
    | some m => (c :: r).take m :: finditerTexts alts ((c :: r).drop (max m 1))
    | none => finditerTexts alts r
termination_by t => t.length
decreasing_by
  all_goals simp_all [List.length_drop]

/-- Lower-case the literals of an alternative (the model of passing
`re.IGNORECASE` while matching against an already lower-cased text). -/
def lowerPieces (ps : List Piece) : List Piece :=
  ps.map fun pc =>
    match pc with
    | .lit s => .lit (lowerStr s)
    | x => x

/-- The keyword list recovered by the calculator's string surgery on a
keywords-typed pattern string. -/
def keywordsOf (raw : String) : List String :=
  if containsSub raw.data "\\b(".data && containsSub raw.data ")\\b".data then
    ((((raw.splitOn "\\b(").getD 1 "").splitOn ")\\b").getD 0 "").splitOn "|"
  else [raw]

/-- `_match_patterns`, one pattern. -/
def matchOnePattern (p : RulePattern) (textLower : List Char) : MatchResult :=
  match p.kind with
  | .regex alts =>
    let ms := finditerTexts (alts.map lowerPieces) textLower
    if ms.length ≠ 0 then
      { pattern := p, matched := true, match_text := String.mk (ms.headD []),
        normalized_score := min 1 ((ms.length : ℚ) * (3/10) + 4/10) }
    else
      { pattern := p, matched := false, match_text := "", normalized_score := 0 }
  | .keywords raw =>
    let kws := keywordsOf raw
    let matchedKws := kws.filter fun kw => containsSub textLower (lowerStr kw.data)
    if matchedKws.length ≠ 0 then
      { pattern := p, matched := true,
        match_text := String.intercalate ", " matchedKws,
        normalized_score := min 1 ((matchedKws.length : ℚ) / (kws.length : ℚ)) }
    else
      { pattern := p, matched := false, match_text := "", normalized_score := 0 }
  | .exact raw =>
    if containsSub textLower (lowerStr raw.data) then
      { pattern := p, matched := true, match_text := raw, normalized_score := 1 }
    else
      { pattern := p, matched := false, match_text := "", normalized_score := 0 }

/-- `_match_patterns`. -/
def matchPatterns (patterns : List RulePattern) (text : String) : List MatchResult :=
  patterns.map fun p => matchOnePattern p (lowerStr text.data)

/-- `_calculate_pattern_score`. -/
def calculatePatternScore (matchResults : List MatchResult) : ℚ :=
  if matchResults.length = 0 then 0
  else
    let totalWeight := (matchResults.map fun r => r.pattern.weight).sum
    if totalWeight = 0 then 0
    else
      let weightedScore := ((matchResults.filter fun r => r.matched).map
        fun r => r.normalized_score * r.pattern.weight).sum
      let baseScore := weightedScore / totalWeight
      let matchCount := (matchResults.filter fun r => r.matched).length
      let boosted :=
        if 1 < matchCount then baseScore * (1 + ((matchCount : ℚ) - 1) * (1/10))
        else baseScore
      min 1 boosted

/-- The six hard-coded domain-support vocabularies of
`_calculate_context_score`. -/
def supportingWords : List (String × List String) :=
  [("low_pay_rate", ["salary", "wage", "compensation", "pay", "rate", "below", "market"]),
   ("geographic_coverage", ["location", "area", "region", "distance", "coverage", "nearby"]),
   ("shift_timing_mismatch", ["time", "shift", "schedule", "hours", "timing", "availability"]),
   ("contract_renegotiation", ["contract", "agreement", "terms", "renewal", "expired"]),
   ("market_analysis", ["market", "competition", "analysis", "trends", "research"]),
   ("partner_meeting", ["meeting", "discussion", "review", "escalation", "urgent"])]

def isWordChar (c : Char) : Bool := c.isAlphanum || c = '_'

/-- `re.findall(r'\b\w+\b', text)`: the maximal word-character runs. -/
def wordsOf : List Char → List (List Char)
  | [] => []
  | c :: t =>
    if isWordChar c then
      (c :: t.takeWhile isWordChar) :: wordsOf (t.dropWhile isWordChar)
    else wordsOf t
termination_by t => t.length
decreasing_by
  all_goals simp_all
  all_goals exact Nat.lt_succ_of_le (List.dropWhile_sublist _).length_le

/-- The base-plus-text-length part of `_calculate_context_score` (starts at
0.5, then the sweet-spot `if/elif` chain). -/
def contextLengthScore (text : String) : ℚ :=
  let l := text.length
  if 50 ≤ l ∧ l ≤ 500 then 1/2 + 2/10
  else if (20 ≤ l ∧ l < 50) ∨ (500 < l ∧ l ≤ 1000) then 1/2 + 1/10
  else if l < 20 then 1/2 - 2/10
  else 1/2

/-- The supporting-words loop of `_calculate_context_score`: for EVERY one
of the six vocabularies (regardless of the rule's category), a positive
overlap with the text's word set adds `min(0.2, overlap*0.05)`. -/
def contextVocabScore (base : ℚ) (text : String) : ℚ :=
  let textWords := wordsOf (lowerStr text.data)
  supportingWords.foldl
    (fun acc entry =>
      let overlap : ℕ := (entry.2.filter fun w => textWords.contains w.data).length
      if 0 < overlap then acc + min (2/10) ((overlap : ℚ) * (5/100)) else acc)
    base

/-- `_calculate_context_score`. -/
def calculateContextScore (matchResults : List MatchResult) (text : String) : ℚ :=
  if ¬ matchResults.any fun r => r.matched then 0
  else min 1 (contextVocabScore (contextLengthScore text) text)

/-- `_calculate_consistency_score`. -/
def calculateConsistencyScore (matchResults : List MatchResult) : ℚ :=
  let matched := matchResults.filter fun r => r.matched
  if matched.length = 0 then 0
  else if matched.length = 1 then 7/10
  else
    let scores := matched.map fun r => r.normalized_score
    let avg := scores.sum / (scores.length : ℚ)
    let variance := (scores.map fun s => (s - avg) ^ 2).sum / (scores.length : ℚ)
    let consistency := 1 - min 1 (variance * 2)
    let consistency :=
      if 2 ≤ matched.length ∧ 7/10 < consistency then consistency + 1/10
      else consistency
    min 1 consistency

/-- `_calculate_boost_score`. -/
def calculateBoostScore (boostConditions : List BoostCondition) (text : String) : ℚ :=
  if boostConditions.length = 0 then 0
  else
    let textLower := lowerStr text.data
    let total := boostConditions.foldl
      (fun acc c =>
        match c.if_contains with
        | some terms =>
          if terms.any (fun term => containsSub textLower (lowerStr term.data)) then
            acc + c.boost
          else acc
        | none => acc)
      0
    min (3/10) total

/-- `f"{q:.3f}"` on the exact rational (round half to even); only used in
the explanation text. -/
def fmt3 (q : ℚ) : String :=
  let scaled := q * 1000
  let fl : ℤ := ⌊scaled⌋
  let frac := scaled - (fl : ℚ)
  let n : ℤ :=
    if 1/2 < frac then fl + 1
    else if frac < 1/2 then fl
    else if fl % 2 = 0 then fl else fl + 1
  let sign := if n < 0 then "-" else ""
  let m := n.natAbs
  let fd := toString (m % 1000)
  sign ++ toString (m / 1000) ++ "." ++
    String.mk (List.replicate (3 - fd.length) '0') ++ fd

/-- `_build_explanation`. -/
def buildExplanation (patternScore contextScore consistencyScore boostScore
    apiConfidence finalScore : ℚ) : String :=
  let parts : List String :=
    (if 8/10 < patternScore then ["Strong pattern matches found"]
     else if 1/2 < patternScore then ["Moderate pattern matches found"]
     else ["Weak pattern matches"]) ++
    (if 7/10 < contextScore then ["good supporting context"]
     else if 1/2 < contextScore then ["some supporting context"]
     else ["limited context"]) ++
    (if 7/10 < consistencyScore then ["consistent signals"]
     else if 1/2 < consistencyScore then ["moderately consistent signals"]
     else []) ++
    (if 1/10 < boostScore then ["confidence boost conditions met"] else []) ++
    (if 8/10 < apiConfidence then ["high API confidence"]
     else if apiConfidence < 1/2 then ["low API confidence"]
     else [])
  "Classification confidence of " ++ fmt3 finalScore ++ " based on: " ++
    String.intercalate ", " parts ++ "."

/-- `_identify_confidence_factors`. -/
def identifyConfidenceFactors (matchResults : List MatchResult)
    (patternScore contextScore consistencyScore boostScore : ℚ) : List String :=
  (if 8/10 < patternScore then ["strong_pattern_match"] else []) ++
  (if 7/10 < contextScore then ["rich_context"] else []) ++
  (if 8/10 < consistencyScore then ["signal_consistency"] else []) ++
  (if 1/10 < boostScore then ["boost_conditions"] else []) ++
  (if 2 < (matchResults.filter fun r => r.matched).length then
    ["multiple_pattern_matches"] else []) ++
  (if patternScore < 4/10 then ["weak_pattern_match"] else []) ++
  (if contextScore < 4/10 then ["limited_context"] else [])

/-- `ClassificationConfidence` (model of
`src/models/classification.ClassificationConfidence` as populated by the
calculator; `pattern_matches` keeps the `MatchResult`s from which the
source builds its per-pattern dicts). -/
structure ClassificationConfidence where
  overall_score : ℚ
  pattern_matches : List MatchResult
  rule_scores : List (String × ℚ)
  confidence_factors : List String
  explanation : String
deriving Repr, DecidableEq

/-- `calculate_confidence` (`api_confidence` defaults to 0.5 in the
source; here it is an explicit argument). -/
def calculateConfidence (rule : ClassificationRule) (text : String)
    (apiConfidence : ℚ) : ClassificationConfidence :=
  let matchResults := matchPatterns rule.patterns text
  let patternScore := calculatePatternScore matchResults
  let contextScore := calculateContextScore matchResults text
  let consistencyScore := calculateConsistencyScore matchResults
  let boostScore := calculateBoostScore rule.confidence_boosts text
  let weightedScore := patternScore * (4/10) + contextScore * (25/100) +
    consistencyScore * (2/10) + boostScore * (15/100)
  let apiFactor := 8/10 + apiConfidence * (4/10)
  let finalScore := max 0 (min (95/100) (weightedScore * apiFactor))
  { overall_score := finalScore
    pattern_matches := matchResults
    rule_scores := [("pattern_matching", patternScore),
      ("context_analysis", contextScore),
      ("signal_consistency", consistencyScore),
      ("boost_conditions", boostScore),
      ("api_confidence_factor", apiFactor)]
    confidence_factors := identifyConfidenceFactors matchResults patternScore
      contextScore consistencyScore boostScore
    explanation := buildExplanation patternScore contextScore consistencyScore
      boostScore apiConfidence finalScore }

/-- C2: for every rule, text and upstream confidence, the overall score is
exactly the weighted combination `0.4*pattern + 0.25*context +
0.2*consistency + 0.15*boost`, scaled by the factor `0.8 +
0.4*api_confidence` and clamped into `[0, 0.95]`. -/
theorem C2_confirmed (rule : ClassificationRule) (text : String) (api : ℚ) :
    (calculateConfidence rule text api).overall_score =
      max 0 (min (95/100)
        ((calculatePatternScore (matchPatterns rule.patterns text) * (4/10) +
          calculateContextScore (matchPatterns rule.patterns text) text * (25/100) +
          calculateConsistencyScore (matchPatterns rule.patterns text) * (2/10) +
          calculateBoostScore rule.confidence_boosts text * (15/100)) *
         (8/10 + api * (4/10)))) ∧
    0 ≤ (calculateConfidence rule text api).overall_score ∧
    (calculateConfidence rule text api).overall_score ≤ 95/100 := by
  refine ⟨rfl, ?_, ?_⟩
  · exact le_max_left 0 _
  · exact max_le (by norm_num) (min_le_left _ _)

/-! ### C9: the context score -/

/-- A text whose words overlap three support vocabularies, and a rule with
one exact pattern that matches it. -/
def c9Text : String := "wage pay rate salary below market time shift schedule hours"

def c9Rule : ClassificationRule := ⟨[⟨PatternKind.exact "wage", 1⟩], []⟩

set_option maxHeartbeats 2000000 in
/-- C9: the claim caps the vocabulary boost at +0.2 in total and ties it to
the rule's category.  In the code the boost is `min(0.2, overlap*0.05)` PER
vocabulary, summed over all six vocabularies regardless of the rule, so for
this 59-character text (length bonus +0.2) the context score reaches
`min(1, 0.5 + 0.2 + 0.2 + 0.2 + 0.05) = 1`, exceeding the claimed maximum
`0.5 + 0.2 + 0.2 = 0.9`. -/
theorem C9_counterexample :
    (matchPatterns c9Rule.patterns c9Text).any (fun r => r.matched) = true ∧
    calculateContextScore (matchPatterns c9Rule.patterns c9Text) c9Text = 1 ∧
    ¬ ((1 : ℚ) ≤ 1/2 + 2/10 + 2/10) := by
  refine ⟨by with_unfolding_all decide, by with_unfolding_all decide, by norm_num⟩

/-- Per-vocabulary additions are each capped at 0.2, so the whole loop adds
at most `0.2 × number of vocabularies` to the base. -/
lemma vocab_fold_le (tw : List (List Char)) :
    ∀ (entries : List (String × List String)) (base : ℚ),
      entries.foldl
        (fun acc entry =>
          let overlap : ℕ := (entry.2.filter fun w => tw.contains w.data).length
          if 0 < overlap then acc + min (2/10) ((overlap : ℚ) * (5/100)) else acc)
        base ≤ base + (entries.length : ℚ) * (2/10)
  | [], base => by simp
  | e :: es, base => by
    simp only [List.foldl_cons, List.length_cons]
    have hrec := vocab_fold_le tw es
      (if 0 < ((e.2.filter fun w => tw.contains w.data).length) then
        base + min (2/10) (((e.2.filter fun w => tw.contains w.data).length : ℚ) * (5/100))
      else base)
    have hstep :
        (if 0 < ((e.2.filter fun w => tw.contains w.data).length) then
          base + min (2/10) (((e.2.filter fun w => tw.contains w.data).length : ℚ) * (5/100))
        else base) ≤ base + 2/10 := by
      split
      · have := min_le_left (2/10 : ℚ)
          (((e.2.filter fun w => tw.contains w.data).length : ℚ) * (5/100))
        linarith
      · linarith
    have hc : ((es.length + 1 : ℕ) : ℚ) = (es.length : ℚ) + 1 := by push_cast; ring
    rw [hc]
    linarith [hrec, hstep]

/-- C9, amended to what the code computes: the context score is 0 when no
pattern matched; otherwise it starts from the base 0.5 adjusted by the
length rules as claimed, and then EVERY one of the six domain vocabularies
(irrespective of the rule's category) with positive overlap adds
`min(0.2, overlap*0.05)` — up to +0.2 per vocabulary, hence up to +1.2 in
total rather than +0.2 — with the final value clamped to at most 1. -/
theorem C9_amended (mrs : List MatchResult) (text : String) :
    (¬ (mrs.any fun r => r.matched) = true → calculateContextScore mrs text = 0) ∧
    ((mrs.any fun r => r.matched) = true →
      calculateContextScore mrs text =
        min 1 (contextVocabScore (contextLengthScore text) text)) ∧
    contextVocabScore (contextLengthScore text) text ≤
      contextLengthScore text + 6 * (2/10) := by
  refine ⟨?_, ?_, ?_⟩
  · intro h; simp [calculateContextScore, h]
  · intro h; simp [calculateContextScore, h]
  · have := vocab_fold_le (wordsOf (lowerStr text.data)) supportingWords
      (contextLengthScore text)
    simpa [contextVocabScore, supportingWords] using this

/-- Witness for the amended C9: the no-match case and a one-match case,
evaluated concretely. -/
theorem C9_amended_witness :
    calculateContextScore [] "" = 0 ∧
    calculateContextScore [⟨⟨PatternKind.exact "a", 1⟩, true, "a", 1⟩] "" =
      min 1 (contextVocabScore (contextLengthScore "") "") :=
  ⟨(C9_amended [] "").1 (by decide),
   (C9_amended [⟨⟨PatternKind.exact "a", 1⟩, true, "a", 1⟩] "").2.1 (by decide)⟩

/-! ### Batch orchestrator (`batch_processor.py`)

Wall-clock timestamps (`started_at`, `completed_at`, `created_at`) and the
uuid `job_id` are environment-dependent; the model keeps them as opaque
data (`processing_time` is set to 0).  The circuit breaker inside
`_process_companies_chunked` only delays scheduling — when open it sleeps
until the cooldown passes and resets — and never changes `job.results` nor
raises, so batch results are modelled without it; the breaker itself is
modelled separately as an explicit state machine below. -/

inductive ProcessingStatus
  | pending
  | analyzing
  | classifying
  | completed
  | failed
  | retrying
deriving Repr, DecidableEq

def statusValue : ProcessingStatus → String
  | .pending => "pending"
  | .analyzing => "analyzing"
  | .classifying => "classifying"
  | .completed => "completed"
  | .failed => "failed"
  | .retrying => "retrying"

/-- The fields of `AnalysisResponse` the orchestrator reads. -/
structure Analysis where
  recommendations : List String
  fill_rate : Option ℚ
  risk_level : Option String
deriving Repr, DecidableEq

structure ProcessingResult where
  company_id : String
  status : ProcessingStatus
  analysis : Option Analysis := none
  classifications : List ClassificationResult := []
  error : Option String := none
  retry_count : ℕ := 0
  processing_time : Option ℚ := none
deriving Repr, DecidableEq

/-! #### Circuit breaker (C5) -/

/-- The `_consecutive_failures` / `_circuit_open` / `_circuit_open_until`
triple of `BatchProcessor`; timestamps are rational seconds. -/
structure CircuitBreakerState where
  consecutive_failures : ℕ
  circuit_open : Bool
  circuit_open_until : Option ℚ
deriving Repr, DecidableEq

def initBreaker : CircuitBreakerState := ⟨0, false, none⟩

/-- `_open_circuit`: 30-second cooldown from `now`. -/
def openCircuit (now : ℚ) (s : CircuitBreakerState) : CircuitBreakerState :=
  { s with circuit_open := true, circuit_open_until := some (now + 30) }

/-- `_record_failure`. -/
def recordFailure (threshold : ℕ) (now : ℚ) (s : CircuitBreakerState) :
    CircuitBreakerState :=
  let s2 := { s with consecutive_failures := s.consecutive_failures + 1 }
  if threshold ≤ s2.consecutive_failures then openCircuit now s2 else s2

/-- `_record_success`. -/
def recordSuccess (s : CircuitBreakerState) : CircuitBreakerState :=
  if 0 < s.consecutive_failures then { s with consecutive_failures := 0 } else s

/-- `_reset_circuit_breaker`. -/
def resetBreaker : CircuitBreakerState → CircuitBreakerState := fun _ => initBreaker

/-- `_is_circuit_open` at wall-clock `now`: the answer plus the possibly
reset state.  Python truthiness of `_circuit_open_until` means a `None`
timestamp reports closed without resetting. -/
def isCircuitOpen (now : ℚ) (s : CircuitBreakerState) : Bool × CircuitBreakerState :=
  match s.circuit_open, s.circuit_open_until with
  | true, some u => if now < u then (true, s) else (false, resetBreaker s)
  | _, _ => (false, s)

/-! #### Per-entity processing and the batch loop -/

/-- `_process_single_company`, given an analysis oracle (`none` models
`_analyze_with_retry` exhausting its retries — every client exception is
retried uniformly, and final failure surfaces as the task raising
"Analysis failed after retries") and the classifier's escalation oracle.
`_classify_recommendations` catches every classification exception and
degrades to an empty list, so an entity with a successful analysis always
COMPLETES. -/
def processSingleCompany (analyze : String → Option Analysis)
    (claude : String → Option String) (cid : String) : ProcessingResult :=
  match analyze cid with
  | none =>
    { company_id := cid, status := .failed,
      error := some "Analysis failed after retries", processing_time := some 0 }
  | some a =>
    let cls :=
      match classifyRecommendations a.recommendations claude with
      | .ok l => l
      | .error _ => []
    { company_id := cid, status := .completed, analysis := some a,
      classifications := cls, processing_time := some 0 }

structure JobSummary where
  total_companies : ℕ
  completed : ℕ
  failed : ℕ
  total_recommendations : ℕ
  high_priority_actions : ℕ
  recommendations_by_category : List (String × ℕ)
  average_processing_time : ℚ
  total_processing_time : ℚ
  completion_rate : ℚ
deriving Repr, DecidableEq

/-- `BatchJob` (results keyed by company id, a CPython-ordered dict). -/
structure BatchJob where
  job_id : String
  company_ids : List String
  created_at : String
  config : List (String × String)
  results : List (String × ProcessingResult)
  metadata : Option JobSummary
deriving Repr, DecidableEq

def BatchJob.total_companies (j : BatchJob) : ℕ := j.company_ids.length

def BatchJob.completed_count (j : BatchJob) : ℕ :=
  (j.results.filter fun p => p.2.status = ProcessingStatus.completed).length

def BatchJob.failed_count (j : BatchJob) : ℕ :=
  (j.results.filter fun p => p.2.status = ProcessingStatus.failed).length

/-- `group_by_category` (dict-building loop). -/
def groupByCategory (classifications : List ClassificationResult) :
    List (RecommendationCategory × List ClassificationResult) :=
  classifications.foldl
    (fun grouped c =>
      if grouped.any (fun g => g.1 = c.category) then
        grouped.map (fun g => if g.1 = c.category then (g.1, g.2 ++ [c]) else g)
      else grouped ++ [(c.category, [c])])
    []

/-- `_generate_job_summary`; `completion_rate = completed/total*100` raises
`ZeroDivisionError` when the job has no companies. -/
def generateJobSummary (job : BatchJob) : Except PyErr JobSummary :=
  let allClassifications :=
    (job.results.filter fun p => p.2.status = ProcessingStatus.completed).foldl
      (fun acc p => acc ++ p.2.classifications) []
  let byCategory := groupByCategory allClassifications
  let highPriorityCount :=
    (allClassifications.filter fun c => c.action_priority = "HIGH").length
  let processingTimes := job.results.filterMap fun p => p.2.processing_time
  let avg :=
    if processingTimes.length ≠ 0 then
      processingTimes.sum / (processingTimes.length : ℚ)
    else 0
  if job.total_companies = 0 then .error .zeroDivisionError
  else
    .ok { total_companies := job.total_companies
          completed := job.completed_count
          failed := job.failed_count
          total_recommendations := allClassifications.length
          high_priority_actions := highPriorityCount
          recommendations_by_category :=
            byCategory.map fun g => (categoryValue g.1, g.2.length)
          average_processing_time := avg
          total_processing_time := processingTimes.sum
          completion_rate :=
            (job.completed_count : ℚ) / (job.total_companies : ℚ) * 100 }

/-- The chunks `ids[i:i+step]` visited by `for i in range(0, len(ids),
step)` for a positive step, as a fuelled recursion (each chunk consumes at
least one element, so `ids.length` steps suffice). -/
def pyChunksF (step : ℕ) : ℕ → List String → List (List String)
  | 0, _ => []
  | _ + 1, [] => []
  | fuel + 1, c :: t => ((c :: t).take step) :: pyChunksF step fuel ((c :: t).drop step)

def pyChunks (step : ℕ) (l : List String) : List (List String) :=
  pyChunksF step l.length l

/-- `process_batch` (async plumbing, retry timing and the circuit-breaker
pause are scheduling-only; the per-entity dataflow is `processSingleCompany`
keyed into the results dict).  `maxConcurrent = 0` makes `range` raise
`ValueError`; a negative value makes the chunk loop body never run, leaving
every entity PENDING.  Any exception inside is logged and re-raised, so it
propagates to the caller. -/
def processBatch (analyze : String → Option Analysis)
    (claude : String → Option String) (maxConcurrent : ℤ)
    (ids : List String) : Except PyErr BatchJob :=
  let init := ids.foldl
    (fun m cid => dictInsert m cid
      { company_id := cid, status := ProcessingStatus.pending : ProcessingResult })
    []
  if maxConcurrent = 0 then .error .valueError
  else
    let results :=
      if maxConcurrent < 0 then init
      else
        (pyChunks maxConcurrent.toNat ids).foldl
          (fun m chunk =>
            chunk.foldl
              (fun m cid => dictInsert m cid (processSingleCompany analyze claude cid))
              m)
          init
    let job : BatchJob :=
      { job_id := "", company_ids := ids, created_at := "", config := [],
        results := results, metadata := none }
    match generateJobSummary job with
    | .ok summary => .ok { job with metadata := some summary }
    | .error e => .error e

/-! #### Prioritized actions and export -/

def priorityRank (p : String) : ℕ :=
  if p = "HIGH" then 3 else if p = "MEDIUM" then 2 else if p = "LOW" then 1 else 0

/-- `a` sorts no later than `b` under
`sorted(key=(rank, confidence), reverse=True)`: descending lexicographic
key order.  A stable merge sort under this relation is exactly CPython's
stable sort followed by `reverse=True` comparison flipping (ties keep
their original order in both). -/
def actionKeyGe (a b : String × ClassificationResult) : Bool :=
  decide (priorityRank b.2.action_priority < priorityRank a.2.action_priority) ||
    (decide (priorityRank b.2.action_priority = priorityRank a.2.action_priority) &&
      decide (b.2.confidence ≤ a.2.confidence))

/-- The `(company_id, classification)` pairs of COMPLETED entities, in dict
order. -/
def collectCompleted (job : BatchJob) : List (String × ClassificationResult) :=
  job.results.foldl
    (fun acc p =>
      if p.2.status = ProcessingStatus.completed then
        acc ++ p.2.classifications.map (fun c => (p.1, c))
      else acc)
    []

def prioritizedSorted (job : BatchJob) : List (String × ClassificationResult) :=
  (collectCompleted job).mergeSort actionKeyGe

/-- Python list slicing `l[:n]` for an integer bound. -/
def pySlice {α : Type} (l : List α) (n : ℤ) : List α :=
  if 0 ≤ n then l.take n.toNat else l.take (l.length - (-n).toNat)

/-- `get_prioritized_actions`: `sorted_actions[:top_n] if top_n else
sorted_actions` — `None` and `0` are both falsy. -/
def getPrioritizedActions (job : BatchJob) (topN : Option ℤ) :
    List (String × ClassificationResult) :=
  let sorted := prioritizedSorted job
  match topN with
  | some n => if n ≠ 0 then pySlice sorted n else sorted
  | none => sorted

/-- A JSON-like value (the structured representation `_export_json`
serializes). -/
inductive JValue
  | null
  | str (s : String)
  | num (q : ℚ)
  | nat (n : ℕ)
  | arr (items : List JValue)
  | obj (fields : List (String × JValue))
deriving Repr

def jsonOfSummary (s : JobSummary) : JValue :=
  .obj [("total_companies", .nat s.total_companies),
        ("completed", .nat s.completed),
        ("failed", .nat s.failed),
        ("total_recommendations", .nat s.total_recommendations),
        ("high_priority_actions", .nat s.high_priority_actions),
        ("recommendations_by_category",
          .obj (s.recommendations_by_category.map fun p => (p.1, JValue.nat p.2))),
        ("average_processing_time", .num s.average_processing_time),
        ("total_processing_time", .num s.total_processing_time),
        ("completion_rate", .num s.completion_rate)]

/-- `_export_json` (the structure `json.dumps` would serialize). -/
def exportJson (job : BatchJob) : JValue :=
  .obj
    [("job_id", .str job.job_id),
     ("created_at", .str job.created_at),
     ("config", .obj (job.config.map fun p => (p.1, JValue.str p.2))),
     ("summary", match job.metadata with
       | some s => jsonOfSummary s
       | none => .obj []),
     ("results", .obj (job.results.map fun p =>
       (p.1, JValue.obj
         [("status", .str (statusValue p.2.status)),
          ("processing_time", match p.2.processing_time with
            | none => .null
            | some q => .num q),
          ("analysis", .obj
            [("fill_rate", match p.2.analysis with
               | some a => match a.fill_rate with
                 | some q => .num q
                 | none => .null
               | none => .null),
             ("risk_level", match p.2.analysis with
               | some a => match a.risk_level with
                 | some r => .str r
                 | none => .null
               | none => .null),
             ("recommendations_count", .nat (match p.2.analysis with
               | some a => a.recommendations.length
               | none => 0))]),
          ("classifications", .arr (p.2.classifications.map fun c =>
            .obj [("category", .str (categoryValue c.category)),
                  ("priority", .str c.action_priority),
                  ("confidence", .num c.confidence),
                  ("action", .str c.specific_action)])),
          ("error", match p.2.error with
            | some e => .str e
            | none => .null)])))]

/-- An empty-or-None cell of the CSV (the `csv` module writes `None` and
`""` both as an empty field; floats via `str`). -/
def csvCellOptQ : Option ℚ → String
  | none => ""
  | some q => pyFloatStr q

/-- `_export_csv` as its rows of stringified cells. -/
def exportCsv (job : BatchJob) : List (List String) :=
  let header := ["company_id", "status", "fill_rate", "risk_level",
    "recommendation_category", "priority", "confidence", "specific_action",
    "processing_time", "error"]
  header :: job.results.foldl
    (fun rows p =>
      let fillRate := match p.2.analysis with
        | some a => csvCellOptQ a.fill_rate
        | none => ""
      let riskLevel := match p.2.analysis with
        | some a => a.risk_level.getD ""
        | none => ""
      rows ++
        (if p.2.classifications.length ≠ 0 then
          p.2.classifications.map fun c =>
            [p.1, statusValue p.2.status, fillRate, riskLevel,
             categoryValue c.category, c.action_priority,
             pyFloatStr c.confidence, c.specific_action,
             csvCellOptQ p.2.processing_time, p.2.error.getD ""]
        else
          [[p.1, statusValue p.2.status, fillRate, riskLevel, "", "", "", "",
            csvCellOptQ p.2.processing_time, p.2.error.getD ""]]))
    []

/-- The textual serializations (`json.dumps` / csv writer output) are
modelled structurally. -/
inductive ExportOutput
  | json (j : JValue)
  | csv (rows : List (List String))

/-- `export_job_results`. -/
def exportJobResults (job : BatchJob) (format : String) : Except PyErr ExportOutput :=
  if format = "json" then .ok (.json (exportJson job))
  else if format = "csv" then .ok (.csv (exportCsv job))
  else .error .valueError

/-! ### C5: circuit-breaker state machine -/

/-- C5: over any sequence of recorded failures/successes and open-checks
(each step below is one event), the breaker behaves as claimed: a failure
increments the counter and — from a closed state — opens the breaker
exactly when the counter reaches the threshold (setting the cooldown
timestamp `now + 30`); an open breaker reports open, unchanged, at any
check before the cooldown timestamp and closes (full reset) at any check
from the timestamp on; recording a success resets the counter to 0 and
does not itself close an open breaker; recording a failure never closes an
open breaker. -/
theorem C5_confirmed (threshold : ℕ) (now : ℚ) (s : CircuitBreakerState) :
    ((recordFailure threshold now s).consecutive_failures =
      s.consecutive_failures + 1) ∧
    (s.circuit_open = false →
      ((recordFailure threshold now s).circuit_open = true ↔
        threshold ≤ s.consecutive_failures + 1)) ∧
    (threshold ≤ s.consecutive_failures + 1 →
      (recordFailure threshold now s).circuit_open_until = some (now + 30)) ∧
    (∀ u, s.circuit_open = true → s.circuit_open_until = some u → now < u →
      isCircuitOpen now s = (true, s)) ∧
    (∀ u, s.circuit_open = true → s.circuit_open_until = some u → u ≤ now →
      isCircuitOpen now s = (false, initBreaker)) ∧
    ((recordSuccess s).consecutive_failures = 0) ∧
    ((recordSuccess s).circuit_open = s.circuit_open ∧
      (recordSuccess s).circuit_open_until = s.circuit_open_until) ∧
    (s.circuit_open = true → (recordFailure threshold now s).circuit_open = true) := by
  obtain ⟨n, o, u0⟩ := s
  refine ⟨?_, ?_, ?_, ?_, ?_, ?_, ?_, ?_⟩
  · simp only [recordFailure, openCircuit]
    split <;> rfl
  · intro ho
    subst ho
    simp only [recordFailure, openCircuit]
    split
    · simp_all
    · simp_all
  · intro h
    simp only [recordFailure, openCircuit]
    rw [if_pos h]
  · intro u ho hu hlt
    subst ho
    simp only at hu
    subst hu
    simp [isCircuitOpen, hlt]
  · intro u ho hu hle
    subst ho
    simp only at hu
    subst hu
    simp [isCircuitOpen, resetBreaker, not_lt.mpr hle]
  · simp only [recordSuccess]
    split <;> simp_all
  · constructor <;> (simp only [recordSuccess]; split <;> rfl)
  · intro ho
    subst ho
    simp only [recordFailure, openCircuit]
    split <;> rfl

/-- Witness for C5 at the default threshold 5: the fifth consecutive
failure opens the breaker with a 30-second cooldown; checks before/at the
timestamp behave as claimed; a success resets the counter. -/
theorem C5_witness :
    (recordFailure 5 0 ⟨4, false, none⟩).circuit_open = true ∧
    (recordFailure 5 0 ⟨4, false, none⟩).consecutive_failures = 5 ∧
    (recordFailure 5 0 ⟨4, false, none⟩).circuit_open_until = some 30 ∧
    isCircuitOpen 10 ⟨5, true, some 30⟩ = (true, ⟨5, true, some 30⟩) ∧
    isCircuitOpen 30 ⟨5, true, some 30⟩ = (false, initBreaker) ∧
    (recordSuccess ⟨3, true, some 30⟩).consecutive_failures = 0 := by
  refine ⟨?_, ?_, ?_, ?_, ?_, ?_⟩
  · exact ((C5_confirmed 5 0 ⟨4, false, none⟩).2.1 rfl).2 (by norm_num)
  · exact (C5_confirmed 5 0 ⟨4, false, none⟩).1
  · have h := (C5_confirmed 5 0 ⟨4, false, none⟩).2.2.1 (by norm_num)
    simpa using h
  · exact (C5_confirmed 5 10 ⟨5, true, some 30⟩).2.2.2.1 30 rfl rfl (by norm_num)
  · exact (C5_confirmed 5 30 ⟨5, true, some 30⟩).2.2.2.2.1 30 rfl rfl (by norm_num)
  · exact (C5_confirmed 5 0 ⟨3, true, some 30⟩).2.2.2.2.2.1

/-! ### C10: prioritized actions -/

/-- C10: `top_n = 0` is falsy in Python, so it returns the ENTIRE sorted
list (same as `top_n = None`); any positive `top_n` truncates the sorted
list to its first `top_n` elements. -/
theorem C10_confirmed (job : BatchJob) :
    getPrioritizedActions job (some 0) = prioritizedSorted job ∧
    getPrioritizedActions job none = prioritizedSorted job ∧
    ∀ n : ℤ, 0 < n →
      getPrioritizedActions job (some n) = (prioritizedSorted job).take n.toNat := by
  refine ⟨by simp [getPrioritizedActions], rfl, ?_⟩
  intro n hn
  simp [getPrioritizedActions, pySlice, hn.ne.symm, hn.le]

def emptyBatchJob : BatchJob := ⟨"", [], "", [], [], none⟩

/-- Witness for C10 at a concrete job and `top_n = 1`. -/
theorem C10_witness :
    getPrioritizedActions emptyBatchJob (some 1) =
      (prioritizedSorted emptyBatchJob).take 1 :=
  (C10_confirmed emptyBatchJob).2.2 1 (by norm_num)

/-! ### C8: export formats -/

/-- The column set claimed by the spec. -/
def claimedColumns : List String :=
  ["entity_id", "status", "category", "priority", "confidence",
   "specific_action", "processing_time", "error"]

/-- C8: the CSV header the code writes has ten columns — including
`fill_rate` and `risk_level`, which are not in the claimed eight-column
set (and the claimed set is not the code's column set under any renaming:
the counts differ). -/
theorem C8_counterexample :
    (exportCsv emptyBatchJob).headD [] =
      ["company_id", "status", "fill_rate", "risk_level",
       "recommendation_category", "priority", "confidence",
       "specific_action", "processing_time", "error"] ∧
    "fill_rate" ∈ (exportCsv emptyBatchJob).headD [] ∧
    "fill_rate" ∉ claimedColumns ∧
    ((exportCsv emptyBatchJob).headD []).length ≠ claimedColumns.length := by
  refine ⟨rfl, by decide, by decide, by decide⟩

/-- C8, amended: CSV export always writes the fixed ten-column header
`company_id, status, fill_rate, risk_level, recommendation_category,
priority, confidence, specific_action, processing_time, error`
(spec's `entity_id`/`category` are `company_id`/`recommendation_category`,
and the code adds `fill_rate`/`risk_level`); `json` produces the
structured representation; every other format raises `ValueError`. -/
theorem C8_amended (job : BatchJob) :
    exportJobResults job "csv" = .ok (.csv (exportCsv job)) ∧
    (exportCsv job).headD [] =
      ["company_id", "status", "fill_rate", "risk_level",
       "recommendation_category", "priority", "confidence",
       "specific_action", "processing_time", "error"] ∧
    exportJobResults job "json" = .ok (.json (exportJson job)) ∧
    ∀ format, format ≠ "json" → format ≠ "csv" →
      exportJobResults job format = .error PyErr.valueError := by
  refine ⟨rfl, rfl, rfl, ?_⟩
  intro format h1 h2
  simp [exportJobResults, h1, h2]

/-- Witness for the amended C8 at a concrete job and format. -/
theorem C8_amended_witness :
    exportJobResults emptyBatchJob "xml" = .error PyErr.valueError :=
  (C8_amended emptyBatchJob).2.2.2 "xml" (by decide) (by decide)

/-! ### C6/C7: the batch results map -/

lemma dictInsert_fresh {α : Type} (m : List (String × α)) (k : String) (v : α)
    (h : ∀ p ∈ m, p.1 ≠ k) : dictInsert m k v = m ++ [(k, v)] := by
  unfold dictInsert
  have hany : m.any (fun p => p.1 = k) = false := by
    rw [List.any_eq_false]
    intro p hp
    simp [h p hp]
  simp [hany]

lemma dictInsert_overwrite {α : Type} (pref suf : List (String × α)) (k : String)
    (v w : α) (hpref : ∀ p ∈ pref, p.1 ≠ k) (hsuf : ∀ p ∈ suf, p.1 ≠ k) :
    dictInsert (pref ++ (k, w) :: suf) k v = pref ++ (k, v) :: suf := by
  unfold dictInsert
  have hany : (pref ++ (k, w) :: suf).any (fun p => p.1 = k) = true := by
    rw [List.any_eq_true]
    exact ⟨(k, w), by simp⟩
  simp only [hany, if_true]
  rw [List.map_append, List.map_cons]
  have hm : pref.map (fun p => if p.1 = k then (k, v) else p) = pref := by
    conv_rhs => rw [← List.map_id pref]
    exact List.map_congr_left fun p hp => by simp [hpref p hp]
  have hs : suf.map (fun p => if p.1 = k then (k, v) else p) = suf := by
    conv_rhs => rw [← List.map_id suf]
    exact List.map_congr_left fun p hp => by simp [hsuf p hp]
  rw [hm, hs]
  simp

lemma foldl_insert_fresh {α : Type} (f : String → α) (ids : List String) :
    ∀ (m : List (String × α)),
      ids.Nodup → (∀ k ∈ ids, ∀ p ∈ m, p.1 ≠ k) →
      ids.foldl (fun m k => dictInsert m k (f k)) m =
        m ++ ids.map (fun k => (k, f k)) := by
  induction ids with
  | nil => intro m _ _; simp
  | cons k ids ih =>
    intro m hnd hfresh
    have hknotin : k ∉ ids := (List.nodup_cons.1 hnd).1
    simp only [List.foldl_cons, List.map_cons]
    rw [dictInsert_fresh m k (f k) (hfresh k (List.mem_cons_self _ _))]
    have hfresh2 : ∀ k2 ∈ ids, ∀ p ∈ m ++ [(k, f k)], p.1 ≠ k2 := by
      intro k2 hk2 p hp
      rcases List.mem_append.1 hp with h | h
      · exact hfresh k2 (List.mem_cons_of_mem _ hk2) p h
      · simp only [List.mem_singleton] at h
        subst h
        intro he
        have he2 : k = k2 := he
        exact hknotin (he2 ▸ hk2)
    rw [ih (m ++ [(k, f k)]) (List.nodup_cons.1 hnd).2 hfresh2]
    simp

lemma foldl_insert_overwrite {α : Type} (f g : String → α) (ids : List String) :
    ∀ (pref : List (String × α)),
      ids.Nodup → (∀ k ∈ ids, ∀ p ∈ pref, p.1 ≠ k) →
      ids.foldl (fun m k => dictInsert m k (f k))
        (pref ++ ids.map fun k => (k, g k)) =
      pref ++ ids.map (fun k => (k, f k)) := by
  induction ids with
  | nil => intro pref _ _; simp
  | cons k ids ih =>
    intro pref hnd hpref
    have hknotin : k ∉ ids := (List.nodup_cons.1 hnd).1
    simp only [List.foldl_cons, List.map_cons]
    have hsuf : ∀ p ∈ ids.map (fun k2 => (k2, g k2)), p.1 ≠ k := by
      intro p hp
      obtain ⟨k2, hk2, rfl⟩ := List.mem_map.1 hp
      intro he
      exact hknotin (he ▸ hk2)
    rw [dictInsert_overwrite pref _ k (f k) (g k)
      (hpref k (List.mem_cons_self _ _)) hsuf]
    have hpref2 : ∀ k2 ∈ ids, ∀ p ∈ pref ++ [(k, f k)], p.1 ≠ k2 := by
      intro k2 hk2 p hp
      rcases List.mem_append.1 hp with h | h
      · exact hpref k2 (List.mem_cons_of_mem _ hk2) p h
      · simp only [List.mem_singleton] at h
        subst h
        intro he
        have he2 : k = k2 := he
        exact hknotin (he2 ▸ hk2)
    have hassoc : pref ++ (k, f k) :: ids.map (fun k2 => (k2, g k2)) =
        (pref ++ [(k, f k)]) ++ ids.map (fun k2 => (k2, g k2)) := by simp
    rw [hassoc, ih (pref ++ [(k, f k)]) (List.nodup_cons.1 hnd).2 hpref2]
    simp

lemma pyChunksF_join (step : ℕ) (hstep : 0 < step) :
    ∀ (fuel : ℕ) (l : List String), l.length ≤ fuel →
      (pyChunksF step fuel l).flatten = l := by
  intro fuel
  induction fuel with
  | zero =>
    intro l hl
    rw [List.length_eq_zero.1 (Nat.le_zero.1 hl)]
    rfl
  | succ fuel ih =>
    intro l hl
    cases l with
    | nil => rfl
    | cons c t =>
      simp only [pyChunksF, List.flatten_cons]
      rw [ih ((c :: t).drop step) (by simp at hl ⊢; omega)]
      exact List.take_append_drop step (c :: t)

lemma foldl_chunkfold {α β : Type} (f : β → α → β) :
    ∀ (ls : List (List α)) (b : β),
      ls.foldl (fun acc l => l.foldl f acc) b = ls.flatten.foldl f b
  | [], _ => rfl
  | l :: ls, b => by
    simp only [List.flatten_cons, List.foldl_cons, List.foldl_append]
    exact foldl_chunkfold f ls (l.foldl f b)

/-- With distinct ids and a positive chunk size, the final results map is
exactly one terminal record per id, in order. -/
lemma batch_results_eq (analyze : String → Option Analysis)
    (claude : String → Option String) (step : ℤ) (ids : List String)
    (hpos : 0 < step) (hnd : ids.Nodup) :
    (pyChunks step.toNat ids).foldl
      (fun m chunk =>
        chunk.foldl
          (fun m cid => dictInsert m cid (processSingleCompany analyze claude cid))
          m)
      (ids.foldl
        (fun m cid => dictInsert m cid
          { company_id := cid, status := ProcessingStatus.pending : ProcessingResult })
        []) =
    ids.map (fun cid => (cid, processSingleCompany analyze claude cid)) := by
  have hstep0 : 0 < step.toNat := by omega
  rw [foldl_chunkfold, pyChunks, pyChunksF_join step.toNat hstep0 ids.length ids le_rfl]
  rw [foldl_insert_fresh
    (fun cid => { company_id := cid, status := ProcessingStatus.pending : ProcessingResult })
    ids [] hnd (by simp)]
  rw [List.nil_append]
  exact foldl_insert_overwrite
    (fun cid => processSingleCompany analyze claude cid)
    (fun cid => { company_id := cid, status := ProcessingStatus.pending : ProcessingResult })
    ids [] hnd (by simp)

lemma processSingle_status (analyze : String → Option Analysis)
    (claude : String → Option String) (cid : String) :
    (processSingleCompany analyze claude cid).status = ProcessingStatus.completed ∨
    (processSingleCompany analyze claude cid).status = ProcessingStatus.failed := by
  unfold processSingleCompany
  cases analyze cid <;> simp

lemma filter_length_add {α : Type} (P Q : α → Bool) :
    ∀ l : List α,
      (∀ a ∈ l, (P a = true ∧ Q a = false) ∨ (P a = false ∧ Q a = true)) →
      (l.filter P).length + (l.filter Q).length = l.length
  | [], _ => rfl
  | a :: l, h => by
    have hrec := filter_length_add P Q l (fun b hb => h b (List.mem_cons_of_mem _ hb))
    rcases h a (List.mem_cons_self _ _) with ⟨hp, hq⟩ | ⟨hp, hq⟩ <;>
      simp [List.filter_cons, hp, hq, hrec] <;> omega

lemma filter_key_length {α : Type} (f : String → α) (cid : String) :
    ∀ ids : List String, ids.Nodup → cid ∈ ids →
      ((ids.map fun k => (k, f k)).filter fun p => p.1 = cid).length = 1 := by
  intro ids
  induction ids with
  | nil => intro _ h; cases h
  | cons k ids ih =>
    intro hnd hmem
    by_cases hk : k = cid
    · subst hk
      have hnotin : k ∉ ids := (List.nodup_cons.1 hnd).1
      have hzero : ((ids.map fun k2 => (k2, f k2)).filter fun p => p.1 = k) = [] := by
        rw [List.filter_eq_nil_iff]
        intro p hp
        obtain ⟨k2, hk2, rfl⟩ := List.mem_map.1 hp
        simp only [decide_eq_true_eq]
        intro he
        exact hnotin (he ▸ hk2)
      simp [List.filter_cons, hzero]
    · have hmem2 : cid ∈ ids := by
        rcases List.mem_cons.1 hmem with h | h
        · exact absurd h.symm hk
        · exact h
      have := ih (List.nodup_cons.1 hnd).2 hmem2
      simp only [List.map_cons, List.filter_cons]
      simp [hk, this]

/-- C6, amended: the claim holds for DISTINCT entity ids (and a positive
chunk size): exactly one terminal result per id, and
`completed_count + failed_count = total`.  With duplicate ids the results
dict collapses them and the counts no longer add up (see the
counterexample). -/
theorem C6_amended (analyze : String → Option Analysis)
    (claude : String → Option String) (step : ℤ) (ids : List String)
    (hpos : 0 < step) (hnd : ids.Nodup) (hne : ids ≠ []) :
    ∃ job, processBatch analyze claude step ids = .ok job ∧
      job.results = ids.map (fun cid => (cid, processSingleCompany analyze claude cid)) ∧
      job.completed_count + job.failed_count = job.total_companies ∧
      job.total_companies = ids.length ∧
      (∀ cid ∈ ids, (job.results.filter fun p => p.1 = cid).length = 1) ∧
      ∀ p ∈ job.results,
        p.2.status = ProcessingStatus.completed ∨
        p.2.status = ProcessingStatus.failed := by
  have hres := batch_results_eq analyze claude step ids hpos hnd
  have hstatus : ∀ p ∈ ids.map (fun cid => (cid, processSingleCompany analyze claude cid)),
      p.2.status = ProcessingStatus.completed ∨ p.2.status = ProcessingStatus.failed := by
    intro p hp
    obtain ⟨cid, _, rfl⟩ := List.mem_map.1 hp
    exact processSingle_status analyze claude cid
  have hcount :
      ((ids.map (fun cid => (cid, processSingleCompany analyze claude cid))).filter
        (fun p => p.2.status = ProcessingStatus.completed)).length +
      ((ids.map (fun cid => (cid, processSingleCompany analyze claude cid))).filter
        (fun p => p.2.status = ProcessingStatus.failed)).length =
      ids.length := by
    rw [filter_length_add _ _ _ ?h, List.length_map]
    case h =>
      intro p hp
      rcases hstatus p hp with h | h <;> simp [h]
  simp only [processBatch]
  rw [if_neg (by omega), if_neg (by omega)]
  rw [hres]
  have htot : ids.length ≠ 0 := fun h => hne (List.length_eq_zero.1 h)
  simp only [generateJobSummary, BatchJob.total_companies]
  rw [if_neg htot]
  refine ⟨_, rfl, rfl, ?_, rfl, ?_, hstatus⟩
  · simpa [BatchJob.completed_count, BatchJob.failed_count,
      BatchJob.total_companies] using hcount
  · intro cid hcid
    exact filter_key_length (fun cid => processSingleCompany analyze claude cid)
      cid ids hnd hcid

/-- A trivially succeeding analysis oracle (zero recommendations). -/
def batchAnalyzeOk : String → Option Analysis := fun _ => some ⟨[], none, none⟩

set_option maxHeartbeats 1000000 in
/-- C6: with the duplicate entity-id list `["a", "a"]` the results dict has
a single entry, so `completed_count + failed_count = 1` while the job's
`total_companies = 2` — the claim fails for lists with duplicates. -/
theorem C6_counterexample :
    ((processBatch batchAnalyzeOk (fun _ => none) 10 ["a", "a"]).map
      (fun job => (job.completed_count + job.failed_count, job.total_companies))) =
    Except.ok (1, 2) ∧ (1 : ℕ) ≠ 2 := by
  refine ⟨by with_unfolding_all rfl, by decide⟩

/-- C7, amended: there is NO job-creation-time validation.  An empty
entity list produces a `ZeroDivisionError` at summary time (after the
processing loop) which propagates; a zero concurrency produces a
`ValueError` from `range` at chunking time; a NEGATIVE concurrency raises
nothing at all — the job completes with every entity left PENDING.  With a
positive concurrency and a non-empty list, `process_batch` never raises,
whatever the per-entity outcomes (entity failures never abort the job). -/
theorem C7_amended (analyze : String → Option Analysis)
    (claude : String → Option String) :
    (∀ step : ℤ, step ≠ 0 →
      processBatch analyze claude step [] = .error PyErr.zeroDivisionError) ∧
    (∀ ids, processBatch analyze claude 0 ids = .error PyErr.valueError) ∧
    (∀ (step : ℤ) (ids : List String), step < 0 → ids ≠ [] →
      ∃ job, processBatch analyze claude step ids = .ok job ∧
        ∀ p ∈ job.results, p.2.status = ProcessingStatus.pending) ∧
    (∀ (step : ℤ) (ids : List String), 0 < step → ids ≠ [] →
      ∃ job, processBatch analyze claude step ids = .ok job) := by
  refine ⟨?_, ?_, ?_, ?_⟩
  · intro step hstep
    simp only [processBatch]
    rw [if_neg hstep]
    rfl
  · intro ids
    simp [processBatch]
  · intro step ids hneg hne
    have hpend : ∀ p ∈ ids.foldl
        (fun m cid => dictInsert m cid
          { company_id := cid, status := ProcessingStatus.pending : ProcessingResult })
        ([] : List (String × ProcessingResult)),
        p.2.status = ProcessingStatus.pending := by
      refine foldl_preserve
        (fun m : List (String × ProcessingResult) =>
          ∀ p ∈ m, p.2.status = ProcessingStatus.pending) _ ?_ ids [] ?_
      · intro m cid hm p hp
        rcases dictInsert_mem hp with h | h
        · exact hm p h
        · rw [h]
      · intro p hp; cases hp
    simp only [processBatch]
    rw [if_neg (by omega), if_pos hneg]
    have htot : ids.length ≠ 0 := fun h => hne (List.length_eq_zero.1 h)
    simp only [generateJobSummary, BatchJob.total_companies]
    rw [if_neg htot]
    exact ⟨_, rfl, hpend⟩
  · intro step ids hpos hne
    simp only [processBatch]
    rw [if_neg (by omega), if_neg (by omega)]
    have htot : ids.length ≠ 0 := fun h => hne (List.length_eq_zero.1 h)
    simp only [generateJobSummary, BatchJob.total_companies]
    rw [if_neg htot]
    exact ⟨_, rfl⟩

set_option maxHeartbeats 1000000 in
/-- C7: with the invalid concurrency value −1, `process_batch` does NOT
fail at job creation (or anywhere): it returns a job whose single entity is
still PENDING — refuting "fails at job creation with a configuration error
that propagates".  (And the empty-list failure is a `ZeroDivisionError`
computed after the processing loop, not a job-creation validation.) -/
theorem C7_counterexample :
    ((processBatch batchAnalyzeOk (fun _ => none) (-1) ["a"]).map
      (fun job => job.results.map fun p => (p.1, statusValue p.2.status))) =
      Except.ok [("a", "pending")] ∧
    processBatch batchAnalyzeOk (fun _ => none) 10 [] =
      .error PyErr.zeroDivisionError := by
  refine ⟨by with_unfolding_all rfl, by with_unfolding_all rfl⟩

set_option maxHeartbeats 1000000 in
/-- Witness for the amended C6 at two distinct ids, one succeeding and one
failing. -/
theorem C6_amended_witness :
    ∃ job, processBatch (fun cid => if cid = "a" then some ⟨[], none, none⟩ else none)
        (fun _ => none) 10 ["a", "b"] = .ok job ∧
      job.results = ["a", "b"].map (fun cid => (cid,
        processSingleCompany
          (fun cid => if cid = "a" then some ⟨[], none, none⟩ else none)
          (fun _ => none) cid)) ∧
      job.completed_count + job.failed_count = job.total_companies ∧
      job.total_companies = ["a", "b"].length ∧
      (∀ cid ∈ ["a", "b"],
        (job.results.filter fun p => p.1 = cid).length = 1) ∧
      ∀ p ∈ job.results,
        p.2.status = ProcessingStatus.completed ∨
        p.2.status = ProcessingStatus.failed :=
  C6_amended (fun cid => if cid = "a" then some ⟨[], none, none⟩ else none)
    (fun _ => none) 10 ["a", "b"] (by norm_num) (by decide) (by decide)

/-- Witness for the amended C7 at concrete oracles and inputs. -/
theorem C7_amended_witness :
    processBatch batchAnalyzeOk (fun _ => none) 7 [] =
      .error PyErr.zeroDivisionError ∧
    ∃ job, processBatch batchAnalyzeOk (fun _ => none) 3 ["a"] = .ok job := by
  constructor
  · exact (C7_amended batchAnalyzeOk (fun _ => none)).1 7 (by norm_num)
  · exact (C7_amended batchAnalyzeOk (fun _ => none)).2.2.2 3 ["a"]
      (by norm_num) (by decide)

end FillRate
